import Mathlib

/-!
Verification of the double-entry accounting ledger of the eastern-shore-ai
worker (`worker/src/index.js`).

The relational state touched by the ledger subsystem is embedded as the
structure `DB` below: the chart of accounts (`accounts`), the journal
(`journal_entries` / `journal_lines`), the income fact table (`tax_income`)
and the invoices table.  All monetary amounts are integer cents (`Int`), as
in the source, where every amount flowing into these code paths is an
integral number of cents.  SQL row ids are modelled by explicit
auto-increment counters.  Timestamp columns (`created_at` / `updated_at`)
are not represented: no ledger decision reads them, and the operations
modelled here either update a row's business fields or leave the row alone.
`date('now')` / `new Date().toISOString().slice(0,10)` are modelled by an
explicit `today` parameter.

Each Lean definition mirrors one JavaScript function of the source and keeps
its name.
-/

/-- One row of the `accounts` table. -/
structure Account where
  id : Int
  code : String
  name : String
  accountType : String
  normalSide : String
deriving Repr, DecidableEq

/-- One row of the `journal_entries` table.  `sourceId` is NULL for manual
entries, the fact row id for auto journals, and the year for closing
entries. -/
structure JournalEntry where
  id : Int
  entryDate : String
  memo : String
  sourceType : String
  sourceId : Option Int
deriving Repr, DecidableEq

/-- One row of the `journal_lines` table.  Lines are looked up by
`entry_id`; the surrogate rowid of a line is never read by the code and is
omitted. -/
structure JournalLine where
  entryId : Int
  accountId : Int
  debitCents : Int
  creditCents : Int
deriving Repr, DecidableEq

/-- One row of the `tax_income` table (the fields the ledger code reads). -/
structure IncomeRow where
  id : Int
  incomeDate : String
  source : String
  category : String
  amountCents : Int
  stripeSessionId : Option String
  notes : Option String
  isOwnerFunded : Int
deriving Repr, DecidableEq

/-- One row of the `tax_expenses` table (the fields the ledger code reads).
`vendor` and `paidVia` are nullable TEXT columns; the code reads them only
through `(x || '')`, so NULL is modelled as the empty string. -/
structure ExpenseRow where
  id : Int
  expenseDate : String
  vendor : String
  category : String
  amountCents : Int
  paidVia : String
deriving Repr, DecidableEq

/-- One row of the `invoices` table (the fields the ledger code reads). -/
structure Invoice where
  id : Int
  invoiceNumber : String
  totalCents : Int
  amountPaidCents : Int
  balanceDueCents : Int
  status : String
  paidDate : Option String
deriving Repr, DecidableEq

/-- The relational state seen by the ledger subsystem.  `tablesExist`
models whether the `accounts` / `journal_entries` / `journal_lines` tables
have been created by the schema migration (they are created together by
migration 0006). -/
structure DB where
  tablesExist : Bool
  accounts : List Account
  entries : List JournalEntry
  lines : List JournalLine
  taxIncome : List IncomeRow
  invoices : List Invoice
  nextAccountId : Int
  nextEntryId : Int
  nextIncomeId : Int
deriving Repr, DecidableEq

/-- The empty database, with the ledger tables provisioned. -/
def emptyDB : DB :=
  { tablesExist := true, accounts := [], entries := [], lines := [],
    taxIncome := [], invoices := [],
    nextAccountId := 1, nextEntryId := 1, nextIncomeId := 1 }

/-- Whether the first character list is an initial segment of the second. -/
def charsLeadWith : List Char → List Char → Bool
  | [], _ => true
  | _ :: _, [] => false
  | a :: as, b :: bs => a == b && charsLeadWith as bs

/-- Whether `pat` occurs as a contiguous run inside `s`. -/
def charsContain (pat : List Char) : List Char → Bool
  | [] => pat.isEmpty
  | c :: s => charsLeadWith pat (c :: s) || charsContain pat s

/-- JavaScript `s.includes(pat)`. -/
def strContains (s pat : String) : Bool :=
  charsContain pat.toList s.toList

/-- SQL `LIKE` pattern matching on character lists: `%` matches any run of
characters, `_` matches exactly one character, and plain characters match
ASCII case-insensitively (SQLite's default `LIKE` semantics).  Each
recursive call consumes at least one character of the pattern or of the
subject, so `fuel = |pat| + |s| + 1` always suffices; the fuel argument only
makes the recursion structural. -/
def likeMatchFuel : Nat → List Char → List Char → Bool
  | 0, _, _ => false
  | _ + 1, [], [] => true
  | fuel + 1, '%' :: ps, s =>
      likeMatchFuel fuel ps s ||
        (match s with
         | [] => false
         | _ :: s' => likeMatchFuel fuel ('%' :: ps) s')
  | fuel + 1, '_' :: ps, _ :: s => likeMatchFuel fuel ps s
  | fuel + 1, p :: ps, c :: s =>
      (p.toLower == c.toLower) && likeMatchFuel fuel ps s
  | _ + 1, _, _ => false

/-- SQL `s LIKE pat`. -/
def sqlLike (s pat : String) : Bool :=
  likeMatchFuel (pat.length + s.length + 1) pat.toList s.toList

/-- JavaScript `s.trim()`: strip leading and trailing whitespace.  Built on
character lists so that it evaluates inside the kernel. -/
def strTrim (s : String) : String :=
  String.mk
    (((s.toList.dropWhile Char.isWhitespace).reverse.dropWhile
      Char.isWhitespace).reverse)

/-- JavaScript `s.slice(0, n)`. -/
def strTake (s : String) (n : Nat) : String :=
  String.mk (s.toList.take n)

/-- JavaScript `s.toLowerCase()` over ASCII. -/
def strToLower (s : String) : String :=
  String.mk (s.toList.map Char.toLower)

/-- JavaScript `Number(s)` for a digit string. -/
def strToNat (s : String) : Nat :=
  s.toList.foldl (fun n c => n * 10 + (c.toNat - 48)) 0

/-- Code-point comparison of strings (SQLite BINARY `ORDER BY`). -/
def charsLt : List Char → List Char → Bool
  | [], [] => false
  | [], _ :: _ => true
  | _ :: _, [] => false
  | a :: as, b :: bs =>
      if a < b then true else if b < a then false else charsLt as bs

/-- String comparison via `charsLt`. -/
def strLt (s t : String) : Bool :=
  charsLt s.toList t.toList

/-- The `^\d{4}-\d{2}-\d{2}$` date-shape test used by the handlers. -/
def isDateString (s : String) : Bool :=
  match s.toList with
  | [a, b, c, d, '-', e, f, '-', g, h] =>
      a.isDigit && b.isDigit && c.isDigit && d.isDigit &&
      e.isDigit && f.isDigit && g.isDigit && h.isDigit
  | _ => false

/-- The `^\d{4}$` year-shape test used by the year-close handler. -/
def isYearString (s : String) : Bool :=
  s.length = 4 && s.toList.all Char.isDigit

example : isDateString "2024-03-15" = true := by decide
example : isDateString "2024-3-15" = false := by decide
example : isYearString "2024" = true := by decide
example : strContains "a business card x" "business card" = true := by decide
example : strContains "cashier" "cash" = true := by decide
example : sqlLike "invoice-payment:3:evt_1" "invoice-payment:3:%" = true := by decide
example : sqlLike "x | invoice_id=3 | y" "%invoice_id=3%" = true := by decide
example : sqlLike "other" "%invoice_id=3%" = false := by decide

/-- The fixed 18-row chart of accounts seeded by `ensureAccountingSetup`
when the `accounts` table is empty. -/
def seedChart : List (String × String × String × String) :=
  [("1000", "Cash on Hand", "asset", "debit"),
   ("1010", "Owner Personal Card Clearing", "liability", "credit"),
   ("1100", "Accounts Receivable", "asset", "debit"),
   ("2000", "Accounts Payable", "liability", "credit"),
   ("2100", "Credit Card Payable", "liability", "credit"),
   ("2200", "Sales Tax Payable", "liability", "credit"),
   ("3000", "Owner Equity", "equity", "credit"),
   ("3100", "Owner Contributions", "equity", "credit"),
   ("3200", "Owner Draw", "equity", "debit"),
   ("4000", "Service Revenue", "income", "credit"),
   ("4900", "Other Income", "income", "credit"),
   ("5000", "Software Expense", "expense", "debit"),
   ("5100", "Marketing Expense", "expense", "debit"),
   ("5200", "Office Expense", "expense", "debit"),
   ("5300", "Payment Processing Fees", "expense", "debit"),
   ("5400", "Contractor Expense", "expense", "debit"),
   ("5500", "Travel Expense", "expense", "debit"),
   ("5600", "Utilities Expense", "expense", "debit")]

/-- `accountingTablesReady(db)`: the three ledger tables exist. -/
def accountingTablesReady (db : DB) : Bool :=
  db.tablesExist

/-- Insert one account row with the next auto-increment id. -/
def insertAccount (db : DB) (code name accountType normalSide : String) : Int × DB :=
  let aid := db.nextAccountId
  (aid,
   { db with
       accounts := db.accounts ++
         [{ id := aid, code := code, name := name,
            accountType := accountType, normalSide := normalSide }],
       nextAccountId := aid + 1 })

/-- `ensureAccountingSetup(db)`: false when the ledger tables are missing;
otherwise seeds the fixed chart when the `accounts` table is empty.
Returns the readiness flag together with the (possibly seeded) state. -/
def ensureAccountingSetup (db : DB) : Bool × DB :=
  if !accountingTablesReady db then (false, db)
  else if db.accounts.length > 0 then (true, db)
  else
    (true,
     seedChart.foldl
       (fun d s => (insertAccount d s.1 s.2.1 s.2.2.1 s.2.2.2).2) db)

/-- `getAccountIdByCode(db, code)`. -/
def getAccountIdByCode (db : DB) (code : String) : Option Int :=
  (db.accounts.find? (fun a => a.code == code)).map (·.id)

/-- `ensureAccountByCode(db, code, name, accountType, normalSide)`:
get-or-create by code. -/
def ensureAccountByCode (db : DB) (code name accountType normalSide : String) :
    Int × DB :=
  match db.accounts.find? (fun a => a.code == code) with
  | some a => (a.id, db)
  | none => insertAccount db code name accountType normalSide

/-- `deleteAutoJournalBySource(db, sourceType, sourceId)`: removes every
journal entry matching the source tuple together with its lines.  A no-op
when the ledger tables are missing. -/
def deleteAutoJournalBySource (db : DB) (st : String) (sid : Int) : DB :=
  if !accountingTablesReady db then db
  else
    let victims :=
      (db.entries.filter
        (fun e => e.sourceType == st && e.sourceId == some sid)).map (·.id)
    { db with
        entries := db.entries.filter
          (fun e => !(e.sourceType == st && e.sourceId == some sid)),
        lines := db.lines.filter (fun l => !(victims.contains l.entryId)) }

/-- The `journal_lines` rows of one entry, from
`(accountId, debitCents, creditCents)` triples. -/
def mkLines (eid : Int) (lns : List (Int × Int × Int)) : List JournalLine :=
  lns.map (fun t =>
    { entryId := eid, accountId := t.1,
      debitCents := t.2.1, creditCents := t.2.2 })

/-- Insert one journal entry with the next auto-increment id, followed by
the given `(accountId, debitCents, creditCents)` lines, as the source does
with one `INSERT` into `journal_entries` and `INSERT`s into
`journal_lines`.  Returns the new entry id. -/
def postEntry (db : DB) (entryDate memo sourceType : String)
    (sourceId : Option Int) (lns : List (Int × Int × Int)) : Int × DB :=
  let eid := db.nextEntryId
  (eid,
   { db with
       entries := db.entries ++
         [{ id := eid, entryDate := entryDate, memo := memo,
            sourceType := sourceType, sourceId := sourceId }],
       lines := db.lines ++ mkLines eid lns,
       nextEntryId := eid + 1 })

/-- The expense account code chosen by `upsertTaxExpenseJournal` from the
fact's category. -/
def expenseAccountCodeFor (category : String) : String :=
  if category = "Payment Processing Fees" then "5300" else "5200"

/-- The offset account code chosen by `upsertTaxExpenseJournal` from the
fact's lower-cased `paid_via` text. -/
def expenseOffsetCodeFor (paidViaLower : String) : String :=
  if strContains paidViaLower "stripe" || strContains paidViaLower "cash" ||
     strContains paidViaLower "checking" || strContains paidViaLower "bank" then
    "1000"
  else if strContains paidViaLower "business card" ||
          strContains paidViaLower "corp card" then
    "2100"
  else
    "3100"

/-- `upsertTaxExpenseJournal(db, row)`: delete-then-repost of the auto
journal entry of one expense fact.  Every return path of the source
function is a plain `return`, so every path here is `.ok`. -/
def upsertTaxExpenseJournal (db : DB) (row : ExpenseRow) : Except String DB :=
  match ensureAccountingSetup db with
  | (false, db0) => .ok db0
  | (true, db0) =>
    let db1 := deleteAutoJournalBySource db0 "tax_expense" row.id
    let amount := row.amountCents
    if amount ≤ 0 then .ok db1
    else
      let expenseAccountCode := expenseAccountCodeFor row.category
      let paidVia := strToLower row.paidVia
      let offsetCode := expenseOffsetCodeFor paidVia
      match getAccountIdByCode db1 expenseAccountCode,
            getAccountIdByCode db1 offsetCode with
      | some debitAccountId, some creditAccountId =>
        let memo :=
          (if row.category = "" then "Expense" else row.category) ++
            (if row.vendor = "" then "" else " - " ++ row.vendor)
        .ok (postEntry db1 row.expenseDate memo "tax_expense" (some row.id)
              [(debitAccountId, amount, 0), (creditAccountId, 0, amount)]).2
      | _, _ => .ok db1

/-- The owner-funded test of `upsertTaxIncomeJournal`: the explicit flag,
or substring inference over the trimmed lower-cased category and source
texts (the category is probed for "owner funded" and "non-revenue", the
source for "owner funded" and "test"). -/
def incomeIsOwnerFunded (row : IncomeRow) : Bool :=
  let categoryRaw := strToLower (strTrim row.category)
  let sourceRaw := strToLower (strTrim row.source)
  row.isOwnerFunded == 1 ||
    strContains categoryRaw "owner funded" ||
    strContains categoryRaw "non-revenue" ||
    strContains sourceRaw "owner funded" ||
    strContains sourceRaw "test"

/-- `upsertTaxIncomeJournal(db, row)`: delete-then-repost of the auto
journal entry of one income fact.  Every return path of the source function
is a plain `return`, so every path here is `.ok`. -/
def upsertTaxIncomeJournal (db : DB) (row : IncomeRow) : Except String DB :=
  match ensureAccountingSetup db with
  | (false, db0) => .ok db0
  | (true, db0) =>
    let db1 := deleteAutoJournalBySource db0 "tax_income" row.id
    let amount := row.amountCents
    if amount ≤ 0 then .ok db1
    else
      let creditAccountCode := if incomeIsOwnerFunded row then "3100" else "4000"
      match getAccountIdByCode db1 "1000",
            getAccountIdByCode db1 creditAccountCode with
      | some debitAccountId, some creditAccountId =>
        let memo :=
          (if row.category = "" then "Income" else row.category) ++
            (if row.source = "" then "" else " - " ++ row.source)
        .ok (postEntry db1 row.incomeDate memo "tax_income" (some row.id)
              [(debitAccountId, amount, 0), (creditAccountId, 0, amount)]).2
      | _, _ => .ok db1

/-- The 503 message returned by the ledger HTTP handlers when the ledger
tables are missing. -/
def notMigratedMsg : String :=
  "Accounting tables are not migrated yet. Run D1 migrations with --remote."

/-- `handleAccountsJournalCreate` after request parsing: the manual
journal-entry poster.  `cents` is the already-converted `toCents(amount)`
value. -/
def handleAccountsJournalCreate (db : DB) (entryDate memo : String)
    (debitAccountId creditAccountId : Int) (cents : Int) :
    Except String (Int × DB) :=
  match ensureAccountingSetup db with
  | (false, _) => .error notMigratedMsg
  | (true, db0) =>
    if !isDateString entryDate then .error "Invalid date"
    else if debitAccountId = 0 || creditAccountId = 0 ||
            debitAccountId = creditAccountId then
      .error "Invalid debit/credit accounts"
    else if cents ≤ 0 then .error "Invalid amount"
    else
      let (eid, db1) := postEntry db0 entryDate memo "manual" none
        [(debitAccountId, cents, 0), (creditAccountId, 0, cents)]
      .ok (eid, db1)

/-- `handleTaxOwnerTransfer` after request parsing: posts one
`owner_transfer` journal entry for one of the three fixed transfer
types. -/
def handleTaxOwnerTransfer (db : DB) (entryDate transferType notes : String)
    (cents : Int) : Except String (Int × DB) :=
  match ensureAccountingSetup db with
  | (false, _) => .error notMigratedMsg
  | (true, db0) =>
    if !isDateString entryDate then .error "Invalid date"
    else if !(transferType = "personal_to_business" ||
              transferType = "business_to_personal" ||
              transferType = "personal_paid_business_card") then
      .error "Invalid transfer type"
    else if cents ≤ 0 then .error "Invalid amount"
    else
      match getAccountIdByCode db0 "1000", getAccountIdByCode db0 "3100",
            getAccountIdByCode db0 "3200", getAccountIdByCode db0 "2100" with
      | some cashId, some ownerContribId, some ownerDrawId, some ccPayableId =>
        let memo := if notes = "" then "Owner transfer: " ++ transferType else notes
        let lns :=
          if transferType = "personal_to_business" then
            [(cashId, cents, 0), (ownerContribId, 0, cents)]
          else if transferType = "business_to_personal" then
            [(ownerDrawId, cents, 0), (cashId, 0, cents)]
          else
            [(ccPayableId, cents, 0), (ownerContribId, 0, cents)]
        let (eid, db1) := postEntry db0 entryDate memo "owner_transfer" none lns
        .ok (eid, db1)
      | _, _, _, _ => .error "Required accounts not found"

/-- Ascending insertion by account code, mirroring `ORDER BY a.code ASC`. -/
def insertByCode (a : Account) : List Account → List Account
  | [] => [a]
  | b :: bs => if strLt b.code a.code then b :: insertByCode a bs else a :: b :: bs

/-- The account list in `ORDER BY a.code ASC` order. -/
def sortByCode (l : List Account) : List Account :=
  l.foldr insertByCode []

/-- The debit total the year-close aggregation query computes for one
account.  NOTE: in the source SQL the year bounds appear only in the
`LEFT JOIN journal_entries je ON je.id = jl.entry_id AND je.entry_date >= ?1
AND je.entry_date <= ?2` clause and there is no `WHERE` clause, so no
`journal_lines` row is excluded from `SUM(jl.debit_cents)`; the sums range
over every journal line of the account regardless of entry date. -/
def allTimeDebitTotal (db : DB) (accountId : Int) : Int :=
  ((db.lines.filter (fun l => l.accountId == accountId)).map
    (·.debitCents)).sum

/-- Credit counterpart of `allTimeDebitTotal`. -/
def allTimeCreditTotal (db : DB) (accountId : Int) : Int :=
  ((db.lines.filter (fun l => l.accountId == accountId)).map
    (·.creditCents)).sum

/-- The `balance_cents` the year-close handler derives for one account:
`normal_side == 'debit' ? debits - credits : credits - debits` over the
aggregated totals. -/
def yearCloseBalance (db : DB) (a : Account) : Int :=
  if a.normalSide = "debit" then
    allTimeDebitTotal db a.id - allTimeCreditTotal db a.id
  else
    allTimeCreditTotal db a.id - allTimeDebitTotal db a.id

/-- The preview payload of the year-close handler: the amounts of the three
planned closing steps. -/
structure ClosePreview where
  year : String
  step1Cents : Int
  step2Cents : Int
  step3Cents : Int
deriving Repr, DecidableEq

/-- `handleAccountsYearClose` after request parsing.  Computes the
(all-time, see `allTimeDebitTotal`) balances of the nonzero income and
expense accounts, lazily creates accounts 3900 and 3000, and in apply mode
deletes the prior `year_close` entries of the year and posts up to three
closing entries dated `year-12-31`. -/
def handleAccountsYearClose (db : DB) (year : String) (apply : Bool) :
    Except String (ClosePreview × DB) :=
  match ensureAccountingSetup db with
  | (false, _) => .error notMigratedMsg
  | (true, db0) =>
    if !isYearString year then .error "Invalid year"
    else
      let accountsOrdered := sortByCode db0.accounts
      let income := (accountsOrdered.filter
        (fun a => a.accountType == "income")).filter
          (fun a => yearCloseBalance db0 a ≠ 0)
      let expenses := (accountsOrdered.filter
        (fun a => a.accountType == "expense")).filter
          (fun a => yearCloseBalance db0 a ≠ 0)
      let incomeTotal := (income.map (yearCloseBalance db0)).sum
      let expenseTotal := (expenses.map (yearCloseBalance db0)).sum
      let net := incomeTotal - expenseTotal
      let (incomeSummaryId, db1) :=
        ensureAccountByCode db0 "3900" "Income Summary" "equity" "credit"
      let (ownerEquityId, db2) :=
        ensureAccountByCode db1 "3000" "Owner Equity" "equity" "credit"
      let preview : ClosePreview :=
        { year := year, step1Cents := incomeTotal,
          step2Cents := expenseTotal, step3Cents := net }
      if !apply then .ok (preview, db2)
      else
        let yearNum : Int := (strToNat year : Nat)
        let victims := ((db2.entries.filter
          (fun e => e.sourceType == "year_close" &&
                    e.sourceId == some yearNum)).map (·.id))
        let db3 :=
          { db2 with
              entries := db2.entries.filter
                (fun e => !(e.sourceType == "year_close" &&
                            e.sourceId == some yearNum)),
              lines := db2.lines.filter
                (fun l => !(victims.contains l.entryId)) }
        let closeDate := year ++ "-12-31"
        let db4 :=
          if incomeTotal ≠ 0 then
            (postEntry db3 closeDate ("Year-end close " ++ year ++ " - revenues")
              "year_close" (some yearNum)
              ((income.map (fun a => (a.id, yearCloseBalance db0 a, 0))) ++
                [(incomeSummaryId, 0, incomeTotal)])).2
          else db3
        let db5 :=
          if expenseTotal ≠ 0 then
            (postEntry db4 closeDate ("Year-end close " ++ year ++ " - expenses")
              "year_close" (some yearNum)
              ([(incomeSummaryId, expenseTotal, 0)] ++
                (expenses.map (fun a => (a.id, 0, yearCloseBalance db0 a))))).2
          else db4
        let db6 :=
          if net ≠ 0 then
            if net > 0 then
              (postEntry db5 closeDate
                ("Year-end close " ++ year ++ " - net to equity")
                "year_close" (some yearNum)
                [(incomeSummaryId, net, 0), (ownerEquityId, 0, net)]).2
            else
              (postEntry db5 closeDate
                ("Year-end close " ++ year ++ " - net to equity")
                "year_close" (some yearNum)
                [(ownerEquityId, |net|, 0), (incomeSummaryId, 0, |net|)]).2
          else db5
        .ok (preview, db6)

/-- The result JSON of `applyInvoicePayment` (the fields the callers read;
`ok` and `booksUpdated` are the constant `true` in every successful
return and are omitted). -/
structure PayResult where
  id : Int
  amountPaidCents : Int
  balanceDueCents : Int
  status : String
  paymentPostedCents : Int
  duplicateEvent : Bool
deriving Repr, DecidableEq

/-- The parsed argument object of `applyInvoicePayment`. -/
structure PayArgs where
  invoiceId : Int
  requestedPaymentCents : Int
  paymentEventId : String
  incomeDate : Option String
  incomeSource : String
  incomeCategory : String
  incomeNotes : Option String
  stripeSessionIdForBooks : Option String
deriving Repr, DecidableEq

/-- The idempotency key `invoice-payment:{invoiceId}:{eventId}`. -/
def eventKeyOf (id : Int) (eventId : String) : String :=
  s!"invoice-payment:{id}:{eventId}"

/-- The default `notes` text of the income row created for a payment. -/
def defaultPaymentNotes (id : Int) (invoiceNumber eventId : String) : String :=
  s!"Invoice payment posted to books | invoice_id={id}" ++
    s!" | invoice_number={invoiceNumber} | payment_event_id={eventId}"

/-- The `resolvedNotes` computation of `applyInvoicePayment`: the caller
text or the default, with the Stripe session appended when known and not
already mentioned. -/
def resolvePaymentNotes (a : PayArgs) (id : Int)
    (invoiceNumber eventId : String) : String :=
  let baseNotes := a.incomeNotes.getD (defaultPaymentNotes id invoiceNumber eventId)
  match a.stripeSessionIdForBooks with
  | some sid =>
    if strContains baseNotes "stripe_session_id=" then baseNotes
    else baseNotes ++ s!" | stripe_session_id={sid}"
  | none => baseNotes

/-- `applyInvoicePayment(db, args)`, with the clock passed explicitly as
`today`.  The source's `if (!incomeId) throw` after the income `INSERT` is
not modelled: a successful SQLite `INSERT` always reports the new row's
nonzero rowid as `last_row_id`, so that branch is unreachable. -/
def applyInvoicePayment (db : DB) (today : String) (a : PayArgs) :
    Except String (PayResult × DB) :=
  let id := a.invoiceId
  let requestCents := a.requestedPaymentCents
  let eventId := strTrim a.paymentEventId
  if id = 0 || requestCents ≤ 0 then .error "Invalid payment payload"
  else if eventId = "" then .error "Missing paymentEventId"
  else
    let eventKey := eventKeyOf id eventId
    match db.invoices.find? (fun i => i.id == id) with
    | none => .error "Invoice not found"
    | some inv =>
      let total := inv.totalCents
      let currentlyPaid := inv.amountPaidCents
      match db.taxIncome.find? (fun r => r.stripeSessionId == some eventKey) with
      | some _ =>
        let duplicateBalance := max 0 (total - currentlyPaid)
        .ok ({ id := id, amountPaidCents := currentlyPaid,
               balanceDueCents := duplicateBalance,
               status := if duplicateBalance ≤ 0 then "paid" else "partial",
               paymentPostedCents := 0, duplicateEvent := true }, db)
      | none =>
        let remaining := max 0 (total - currentlyPaid)
        let appliedPaymentCents := min remaining requestCents
        if appliedPaymentCents ≤ 0 then .error "Invoice is already fully paid"
        else
          let resolvedIncomeDate := strTake (a.incomeDate.getD today) 10
          let resolvedNotes := resolvePaymentNotes a id inv.invoiceNumber eventId
          let incomeId := db.nextIncomeId
          let newRow : IncomeRow :=
            { id := incomeId, incomeDate := resolvedIncomeDate,
              source := a.incomeSource, category := a.incomeCategory,
              amountCents := appliedPaymentCents,
              stripeSessionId := some eventKey,
              notes := some resolvedNotes, isOwnerFunded := 0 }
          let db1 := { db with taxIncome := db.taxIncome ++ [newRow],
                               nextIncomeId := incomeId + 1 }
          match upsertTaxIncomeJournal db1 newRow with
          | .error e => .error e
          | .ok db2 =>
            let nextPaid := currentlyPaid + appliedPaymentCents
            let nextBalance := max 0 (total - nextPaid)
            let nextStatus := if nextBalance ≤ 0 then "paid" else "partial"
            let db3 :=
              { db2 with
                  invoices := db2.invoices.map (fun i =>
                    if i.id == id then
                      { i with amountPaidCents := nextPaid,
                               balanceDueCents := nextBalance,
                               status := nextStatus,
                               paidDate := if nextBalance = 0 then some today
                                           else i.paidDate }
                    else i) }
            .ok ({ id := id, amountPaidCents := nextPaid,
                   balanceDueCents := nextBalance, status := nextStatus,
                   paymentPostedCents := appliedPaymentCents,
                   duplicateEvent := false }, db3)

/-- The `catch` branch of the income `INSERT` in `applyInvoicePayment`: the
idempotency-race recovery.  It runs with the state a concurrent execution
left behind; `total` and `currentlyPaid` are the values the failing
execution had read before its insert.  `none` models re-throwing the
original insert error when no row with the key is found.  The `||`
fallbacks of `Number(latest?.amount_paid_cents || currentlyPaid)` and
`Number(latest?.total_cents || total)` treat both a missing row and a zero
column as falsy, exactly as JavaScript does. -/
def applyInvoicePaymentRaceRecovery (db : DB) (id : Int) (eventKey : String)
    (total currentlyPaid : Int) : Option (PayResult × DB) :=
  match db.taxIncome.find? (fun r => r.stripeSessionId == some eventKey) with
  | none => none
  | some _ =>
    let latest := db.invoices.find? (fun i => i.id == id)
    let paidNow :=
      match latest with
      | some l => if l.amountPaidCents ≠ 0 then l.amountPaidCents else currentlyPaid
      | none => currentlyPaid
    let totNow :=
      match latest with
      | some l => if l.totalCents ≠ 0 then l.totalCents else total
      | none => total
    let balNow := max 0 (totNow - paidNow)
    some ({ id := id, amountPaidCents := paidNow, balanceDueCents := balNow,
            status := if balNow ≤ 0 then "paid" else "partial",
            paymentPostedCents := 0, duplicateEvent := true }, db)

/-- The row-matching predicate of `syncInvoicePaidFromIncome`:
`stripe_session_id LIKE 'invoice-payment:{id}:%' OR notes LIKE
'%invoice_id={id}%'`.  A NULL column never matches (`NULL LIKE x` is
NULL). -/
def incomeMatchesInvoice (id : Int) (r : IncomeRow) : Bool :=
  (match r.stripeSessionId with
   | some s => sqlLike s (s!"invoice-payment:{id}:" ++ "%")
   | none => false) ||
  (match r.notes with
   | some n => sqlLike n ("%" ++ s!"invoice_id={id}" ++ "%")
   | none => false)

/-- The result object of `syncInvoicePaidFromIncome`. -/
structure SyncResult where
  paid : Int
  balance : Int
  status : String
deriving Repr, DecidableEq

/-- `syncInvoicePaidFromIncome(db, invoiceId)`: recomputes an invoice's
paid/balance/status from the sum of its matching income rows.  Returns
`none` (the source's `null`) without touching the state when the id is zero
or the invoice does not exist. -/
def syncInvoicePaidFromIncome (db : DB) (today : String) (invoiceId : Int) :
    Option SyncResult × DB :=
  let id := invoiceId
  if id = 0 then (none, db)
  else
    match db.invoices.find? (fun i => i.id == id) with
    | none => (none, db)
    | some inv =>
      let total := inv.totalCents
      let s := ((db.taxIncome.filter (incomeMatchesInvoice id)).map
        (·.amountCents)).sum
      let paid := max 0 (min total s)
      let balance := max 0 (total - paid)
      let status :=
        if balance ≤ 0 then "paid" else if paid > 0 then "partial" else "draft"
      let db1 :=
        { db with
            invoices := db.invoices.map (fun i =>
              if i.id == id then
                { i with amountPaidCents := paid,
                         balanceDueCents := balance,
                         status := if i.status = "void" then i.status else status,
                         paidDate := if balance = 0 then
                                       some (i.paidDate.getD today)
                                     else i.paidDate }
              else i) }
      (some { paid := paid, balance := balance, status := status }, db1)

/-- One invocation of a ledger posting operation, with its parsed
payload. -/
inductive LedgerOp where
  | manual (entryDate memo : String) (debitAccountId creditAccountId cents : Int)
  | expenseUpsert (row : ExpenseRow)
  | incomeUpsert (row : IncomeRow)
  | ownerTransfer (entryDate transferType notes : String) (cents : Int)
  | yearClose (year : String) (apply : Bool)
  | payment (today : String) (args : PayArgs)
deriving Repr

/-- The state after one ledger operation; a failed operation leaves the
state unchanged (every error return of the modelled functions happens
before their first write). -/
def stepOp (db : DB) : LedgerOp → DB
  | .manual d m da ca c =>
      match handleAccountsJournalCreate db d m da ca c with
      | .ok r => r.2
      | .error _ => db
  | .expenseUpsert r =>
      match upsertTaxExpenseJournal db r with
      | .ok db' => db'
      | .error _ => db
  | .incomeUpsert r =>
      match upsertTaxIncomeJournal db r with
      | .ok db' => db'
      | .error _ => db
  | .ownerTransfer d t n c =>
      match handleTaxOwnerTransfer db d t n c with
      | .ok r => r.2
      | .error _ => db
  | .yearClose y ap =>
      match handleAccountsYearClose db y ap with
      | .ok r => r.2
      | .error _ => db
  | .payment t a =>
      match applyInvoicePayment db t a with
      | .ok r => r.2
      | .error _ => db

/-- The state after a sequence of ledger operations. -/
def runOps (db : DB) (ops : List LedgerOp) : DB :=
  ops.foldl stepOp db

/-- Sum of the debit amounts of one entry's lines. -/
def entryDebits (db : DB) (eid : Int) : Int :=
  ((db.lines.filter (fun l => l.entryId == eid)).map (·.debitCents)).sum

/-- Sum of the credit amounts of one entry's lines. -/
def entryCredits (db : DB) (eid : Int) : Int :=
  ((db.lines.filter (fun l => l.entryId == eid)).map (·.creditCents)).sum

/-- Every journal entry is balanced: its debit lines and credit lines sum
to the same amount. -/
def BalancedDB (db : DB) : Prop :=
  ∀ e ∈ db.entries, entryDebits db e.id = entryCredits db e.id

/-- Auto-increment sanity: every stored entry id, and the entry id of every
stored line, is below the next id the store will hand out. -/
def LedgerWF (db : DB) : Prop :=
  (∀ e ∈ db.entries, e.id < db.nextEntryId) ∧
  (∀ l ∈ db.lines, l.entryId < db.nextEntryId)

/-- The journal invariant carried through every operation. -/
def LedgerInv (db : DB) : Prop :=
  LedgerWF db ∧ BalancedDB db

instance : DecidablePred BalancedDB := fun db => by
  unfold BalancedDB; infer_instance

instance : DecidablePred LedgerWF := fun db => by
  unfold LedgerWF; infer_instance

instance : DecidablePred LedgerInv := fun db => by
  unfold LedgerInv; infer_instance

/-- Two states with the same journal tables and entry counter. -/
def JournalEq (db db' : DB) : Prop :=
  db'.entries = db.entries ∧ db'.lines = db.lines ∧
    db'.nextEntryId = db.nextEntryId

theorem journalEq_refl (db : DB) : JournalEq db db :=
  ⟨rfl, rfl, rfl⟩

theorem journalEq_trans {a b c : DB} (h1 : JournalEq a b) (h2 : JournalEq b c) :
    JournalEq a c :=
  ⟨h2.1.trans h1.1, h2.2.1.trans h1.2.1, h2.2.2.trans h1.2.2⟩

theorem ledgerInv_of_journalEq {db db' : DB} (h : JournalEq db db')
    (hinv : LedgerInv db) : LedgerInv db' := by
  obtain ⟨he, hl, hn⟩ := h
  constructor
  · constructor
    · intro e hme; rw [he] at hme; rw [hn]; exact hinv.1.1 e hme
    · intro l hml; rw [hl] at hml; rw [hn]; exact hinv.1.2 l hml
  · intro e hme
    rw [he] at hme
    have := hinv.2 e hme
    unfold entryDebits entryCredits at this ⊢
    rw [hl]
    exact this

theorem insertAccount_journalEq (db : DB) (c n t s : String) :
    JournalEq db (insertAccount db c n t s).2 :=
  ⟨rfl, rfl, rfl⟩

theorem seedFold_journalEq (l : List (String × String × String × String))
    (db : DB) :
    JournalEq db
      (l.foldl (fun d s => (insertAccount d s.1 s.2.1 s.2.2.1 s.2.2.2).2) db) := by
  induction l generalizing db with
  | nil => exact journalEq_refl db
  | cons hd tl ih =>
      exact journalEq_trans (insertAccount_journalEq db _ _ _ _) (ih _)

theorem ensureAccountingSetup_journalEq (db : DB) :
    JournalEq db (ensureAccountingSetup db).2 := by
  unfold ensureAccountingSetup
  split
  · exact journalEq_refl db
  · split
    · exact journalEq_refl db
    · exact seedFold_journalEq seedChart db

theorem ensureAccountByCode_journalEq (db : DB) (c n t s : String) :
    JournalEq db (ensureAccountByCode db c n t s).2 := by
  unfold ensureAccountByCode
  split
  · exact journalEq_refl db
  · exact insertAccount_journalEq db _ _ _ _

theorem mkLines_entryId {eid : Int} {lns : List (Int × Int × Int)}
    {l : JournalLine} (h : l ∈ mkLines eid lns) : l.entryId = eid := by
  rcases List.mem_map.mp h with ⟨t, _, ht⟩
  rw [← ht]

theorem mkLines_filter_self (eid : Int) (lns : List (Int × Int × Int)) :
    (mkLines eid lns).filter (fun l => l.entryId == eid) = mkLines eid lns := by
  apply List.filter_eq_self.mpr
  intro l hl
  simp [mkLines_entryId hl]

theorem mkLines_filter_ne {eid eid' : Int} (h : eid ≠ eid')
    (lns : List (Int × Int × Int)) :
    (mkLines eid lns).filter (fun l => l.entryId == eid') = [] := by
  apply List.filter_eq_nil_iff.mpr
  intro l hl
  simp [mkLines_entryId hl, h]

theorem mkLines_map_debit (eid : Int) (lns : List (Int × Int × Int)) :
    (mkLines eid lns).map (·.debitCents) = lns.map (fun t => t.2.1) := by
  unfold mkLines
  rw [List.map_map]
  rfl

theorem mkLines_map_credit (eid : Int) (lns : List (Int × Int × Int)) :
    (mkLines eid lns).map (·.creditCents) = lns.map (fun t => t.2.2) := by
  unfold mkLines
  rw [List.map_map]
  rfl

theorem postEntry_inv (db : DB) (d m st : String) (sid : Option Int)
    (lns : List (Int × Int × Int))
    (hbal : (lns.map (fun t => t.2.1)).sum = (lns.map (fun t => t.2.2)).sum)
    (hinv : LedgerInv db) : LedgerInv (postEntry db d m st sid lns).2 := by
  obtain ⟨⟨hwe, hwl⟩, hb⟩ := hinv
  unfold postEntry LedgerInv LedgerWF BalancedDB entryDebits entryCredits
  dsimp only
  refine ⟨⟨?_, ?_⟩, ?_⟩
  · intro e hme
    rcases List.mem_append.mp hme with h | h
    · have := hwe e h; omega
    · have he : e.id = db.nextEntryId := by
        rw [List.mem_singleton.mp h]
      omega
  · intro l hml
    rcases List.mem_append.mp hml with h | h
    · have := hwl l h; omega
    · have := mkLines_entryId h; omega
  · intro e hme
    rcases List.mem_append.mp hme with h | h
    · have hne : db.nextEntryId ≠ e.id := by
        have := hwe e h; omega
      simp only [List.filter_append, mkLines_filter_ne hne, List.append_nil]
      exact hb e h
    · have he : e.id = db.nextEntryId := by
        rw [List.mem_singleton.mp h]
      have hold : db.lines.filter (fun l => l.entryId == e.id) = [] := by
        apply List.filter_eq_nil_iff.mpr
        intro l hl
        have := hwl l hl
        simp only [beq_iff_eq]
        omega
      rw [he] at hold
      rw [he, List.filter_append, hold, List.nil_append,
        mkLines_filter_self, mkLines_map_debit, mkLines_map_credit]
      exact hbal

theorem deleteBySource_inv (db : DB) (q : JournalEntry → Bool)
    (hinv : LedgerInv db) :
    LedgerInv { db with
      entries := db.entries.filter (fun e => !(q e)),
      lines := db.lines.filter
        (fun l => !(((db.entries.filter q).map (·.id)).contains l.entryId)) } := by
  obtain ⟨⟨hwe, hwl⟩, hb⟩ := hinv
  refine ⟨⟨?_, ?_⟩, ?_⟩
  · intro e hme
    exact hwe e (List.mem_of_mem_filter hme)
  · intro l hml
    exact hwl l (List.mem_of_mem_filter hml)
  · intro e hme
    unfold entryDebits entryCredits
    dsimp only
    rw [List.filter_filter]
    by_cases hvic : e.id ∈ (db.entries.filter q).map (·.id)
    · have hnil : db.lines.filter
          (fun l => (l.entryId == e.id) &&
            !(((db.entries.filter q).map (·.id)).contains l.entryId)) = [] := by
        apply List.filter_eq_nil_iff.mpr
        intro l _
        simp only [Bool.and_eq_true, beq_iff_eq, Bool.not_eq_true,
          List.contains, List.elem_eq_mem, decide_eq_false_iff_not, not_and]
        intro heq
        rw [heq]
        simp [hvic]
      rw [hnil]
      rfl
    · have hcong : db.lines.filter
          (fun l => (l.entryId == e.id) &&
            !(((db.entries.filter q).map (·.id)).contains l.entryId)) =
          db.lines.filter (fun l => l.entryId == e.id) := by
        apply List.filter_congr
        intro l _
        by_cases heq : l.entryId = e.id
        · rw [heq]
          simp only [beq_self_eq_true, Bool.true_and, List.contains,
            List.elem_eq_mem]
          simp [hvic]
        · simp [heq]
      rw [hcong]
      exact hb e (List.mem_of_mem_filter hme)

theorem deleteAutoJournalBySource_inv (db : DB) (st : String) (sid : Int)
    (hinv : LedgerInv db) : LedgerInv (deleteAutoJournalBySource db st sid) := by
  unfold deleteAutoJournalBySource
  split
  · exact hinv
  · exact deleteBySource_inv db _ hinv

theorem upsertTaxExpenseJournal_ok (db : DB) (row : ExpenseRow) :
    ∃ d, upsertTaxExpenseJournal db row = Except.ok d := by
  unfold upsertTaxExpenseJournal
  split
  · exact ⟨_, rfl⟩
  · dsimp only
    split
    · exact ⟨_, rfl⟩
    · split
      · exact ⟨_, rfl⟩
      · exact ⟨_, rfl⟩

theorem upsertTaxIncomeJournal_ok (db : DB) (row : IncomeRow) :
    ∃ d, upsertTaxIncomeJournal db row = Except.ok d := by
  unfold upsertTaxIncomeJournal
  split
  · exact ⟨_, rfl⟩
  · dsimp only
    split
    · exact ⟨_, rfl⟩
    · split
      · exact ⟨_, rfl⟩
      · exact ⟨_, rfl⟩

theorem ensureAccountingSetup_inv {db : DB} (hinv : LedgerInv db) :
    LedgerInv (ensureAccountingSetup db).2 :=
  ledgerInv_of_journalEq (ensureAccountingSetup_journalEq db) hinv

theorem upsertTaxExpenseJournal_inv (db : DB) (row : ExpenseRow) (db' : DB)
    (h : upsertTaxExpenseJournal db row = .ok db') (hinv : LedgerInv db) :
    LedgerInv db' := by
  unfold upsertTaxExpenseJournal at h
  split at h
  case _ db0 heq =>
    injection h with h
    subst h
    have : db0 = (ensureAccountingSetup db).2 := by rw [heq]
    rw [this]
    exact ensureAccountingSetup_inv hinv
  case _ db0 heq =>
    have hinv0 : LedgerInv db0 := by
      have : db0 = (ensureAccountingSetup db).2 := by rw [heq]
      rw [this]
      exact ensureAccountingSetup_inv hinv
    have hinv1 : LedgerInv (deleteAutoJournalBySource db0 "tax_expense" row.id) :=
      deleteAutoJournalBySource_inv db0 "tax_expense" row.id hinv0
    dsimp only at h
    split at h
    · injection h with h
      subst h
      exact hinv1
    · split at h
      · injection h with h
        subst h
        apply postEntry_inv _ _ _ _ _ _ _ hinv1
        simp
      · injection h with h
        subst h
        exact hinv1

theorem upsertTaxIncomeJournal_inv (db : DB) (row : IncomeRow) (db' : DB)
    (h : upsertTaxIncomeJournal db row = .ok db') (hinv : LedgerInv db) :
    LedgerInv db' := by
  unfold upsertTaxIncomeJournal at h
  split at h
  case _ db0 heq =>
    injection h with h
    subst h
    have : db0 = (ensureAccountingSetup db).2 := by rw [heq]
    rw [this]
    exact ensureAccountingSetup_inv hinv
  case _ db0 heq =>
    have hinv0 : LedgerInv db0 := by
      have : db0 = (ensureAccountingSetup db).2 := by rw [heq]
      rw [this]
      exact ensureAccountingSetup_inv hinv
    have hinv1 : LedgerInv (deleteAutoJournalBySource db0 "tax_income" row.id) :=
      deleteAutoJournalBySource_inv db0 "tax_income" row.id hinv0
    dsimp only at h
    split at h
    · injection h with h
      subst h
      exact hinv1
    · split at h
      · injection h with h
        subst h
        apply postEntry_inv _ _ _ _ _ _ _ hinv1
        simp
      · injection h with h
        subst h
        exact hinv1

theorem sum_map_zero {α : Type} (l : List α) :
    (l.map (fun _ => (0 : Int))).sum = 0 := by
  induction l with
  | nil => rfl
  | cons a t ih => simp [ih]

theorem handleAccountsJournalCreate_inv (db : DB) (d m : String)
    (da ca c : Int) (r : Int × DB)
    (h : handleAccountsJournalCreate db d m da ca c = .ok r)
    (hinv : LedgerInv db) : LedgerInv r.2 := by
  unfold handleAccountsJournalCreate at h
  split at h
  · exact absurd h (by simp)
  case _ db0 heq =>
    have hinv0 : LedgerInv db0 := by
      have : db0 = (ensureAccountingSetup db).2 := by rw [heq]
      rw [this]
      exact ensureAccountingSetup_inv hinv
    split at h
    · exact absurd h (by simp)
    · split at h
      · exact absurd h (by simp)
      · split at h
        · exact absurd h (by simp)
        · injection h with h
          subst h
          dsimp only
          apply postEntry_inv _ _ _ _ _ _ _ hinv0
          simp

theorem handleTaxOwnerTransfer_inv (db : DB) (d t n : String) (c : Int)
    (r : Int × DB) (h : handleTaxOwnerTransfer db d t n c = .ok r)
    (hinv : LedgerInv db) : LedgerInv r.2 := by
  unfold handleTaxOwnerTransfer at h
  split at h
  · exact absurd h (by simp)
  case _ db0 heq =>
    have hinv0 : LedgerInv db0 := by
      have : db0 = (ensureAccountingSetup db).2 := by rw [heq]
      rw [this]
      exact ensureAccountingSetup_inv hinv
    split at h
    · exact absurd h (by simp)
    · split at h
      · exact absurd h (by simp)
      · split at h
        · exact absurd h (by simp)
        · split at h
          case _ cashId ownerContribId ownerDrawId ccPayableId _ =>
            injection h with h
            subst h
            dsimp only
            apply postEntry_inv _ _ _ _ _ _ _ hinv0
            split
            · simp
            · split
              · simp
              · simp
          · exact absurd h (by simp)

theorem map_mk_fst (l : List Account) (g : Account → Int) :
    (l.map (fun a => ((a.id, g a, 0) : Int × Int × Int))).map (fun t => t.2.1) =
      l.map g := by
  induction l with
  | nil => rfl
  | cons a t ih => simp [ih]

theorem map_mk_snd0 (l : List Account) (g : Account → Int) :
    (l.map (fun a => ((a.id, g a, 0) : Int × Int × Int))).map (fun t => t.2.2) =
      l.map (fun _ => (0 : Int)) := by
  induction l with
  | nil => rfl
  | cons a t ih => simp [ih]

theorem map_mk2_fst0 (l : List Account) (g : Account → Int) :
    (l.map (fun a => ((a.id, 0, g a) : Int × Int × Int))).map (fun t => t.2.1) =
      l.map (fun _ => (0 : Int)) := by
  induction l with
  | nil => rfl
  | cons a t ih => simp [ih]

theorem map_mk2_snd (l : List Account) (g : Account → Int) :
    (l.map (fun a => ((a.id, 0, g a) : Int × Int × Int))).map (fun t => t.2.2) =
      l.map g := by
  induction l with
  | nil => rfl
  | cons a t ih => simp [ih]

theorem yearCloseSteps_inv (dbx : DB) (year : String) (yearNum sId oId : Int)
    (income expenses : List Account) (bal : Account → Int)
    (hinvx : LedgerInv dbx) :
    LedgerInv
      (let incomeTotal := (income.map bal).sum
       let expenseTotal := (expenses.map bal).sum
       let net := incomeTotal - expenseTotal
       let closeDate := year ++ "-12-31"
       let db4 :=
         if incomeTotal ≠ 0 then
           (postEntry dbx closeDate ("Year-end close " ++ year ++ " - revenues")
             "year_close" (some yearNum)
             ((income.map (fun a => (a.id, bal a, 0))) ++
               [(sId, 0, incomeTotal)])).2
         else dbx
       let db5 :=
         if expenseTotal ≠ 0 then
           (postEntry db4 closeDate ("Year-end close " ++ year ++ " - expenses")
             "year_close" (some yearNum)
             ([(sId, expenseTotal, 0)] ++
               (expenses.map (fun a => (a.id, 0, bal a))))).2
         else db4
       if net ≠ 0 then
         if net > 0 then
           (postEntry db5 closeDate
             ("Year-end close " ++ year ++ " - net to equity")
             "year_close" (some yearNum)
             [(sId, net, 0), (oId, 0, net)]).2
         else
           (postEntry db5 closeDate
             ("Year-end close " ++ year ++ " - net to equity")
             "year_close" (some yearNum)
             [(oId, |net|, 0), (sId, 0, |net|)]).2
       else db5) := by
  dsimp only
  have h4 : LedgerInv
      (if (income.map bal).sum ≠ 0 then
        (postEntry dbx (year ++ "-12-31")
          ("Year-end close " ++ year ++ " - revenues")
          "year_close" (some yearNum)
          ((income.map (fun a => (a.id, bal a, 0))) ++
            [(sId, 0, (income.map bal).sum)])).2
      else dbx) := by
    split
    · apply postEntry_inv _ _ _ _ _ _ _ hinvx
      simp only [List.map_append, List.sum_append, List.map_cons,
        List.map_nil, List.sum_cons, List.sum_nil,
        map_mk_fst, map_mk_snd0, sum_map_zero]
      ring
    · exact hinvx
  have h5 : LedgerInv
      (if (expenses.map bal).sum ≠ 0 then
        (postEntry
          (if (income.map bal).sum ≠ 0 then
            (postEntry dbx (year ++ "-12-31")
              ("Year-end close " ++ year ++ " - revenues")
              "year_close" (some yearNum)
              ((income.map (fun a => (a.id, bal a, 0))) ++
                [(sId, 0, (income.map bal).sum)])).2
          else dbx)
          (year ++ "-12-31")
          ("Year-end close " ++ year ++ " - expenses")
          "year_close" (some yearNum)
          ([(sId, (expenses.map bal).sum, 0)] ++
            (expenses.map (fun a => (a.id, 0, bal a))))).2
      else
        (if (income.map bal).sum ≠ 0 then
          (postEntry dbx (year ++ "-12-31")
            ("Year-end close " ++ year ++ " - revenues")
            "year_close" (some yearNum)
            ((income.map (fun a => (a.id, bal a, 0))) ++
              [(sId, 0, (income.map bal).sum)])).2
        else dbx)) := by
    split
    · apply postEntry_inv _ _ _ _ _ _ _ h4
      simp only [List.map_append, List.sum_append, List.map_cons,
        List.map_nil, List.sum_cons, List.sum_nil,
        map_mk2_fst0, map_mk2_snd, sum_map_zero]
      ring
    · exact h4
  split
  · split
    · apply postEntry_inv _ _ _ _ _ _ _ h5
      simp
    · apply postEntry_inv _ _ _ _ _ _ _ h5
      simp
  · exact h5

theorem handleAccountsYearClose_inv (db : DB) (year : String) (ap : Bool)
    (r : ClosePreview × DB) (h : handleAccountsYearClose db year ap = .ok r)
    (hinv : LedgerInv db) : LedgerInv r.2 := by
  unfold handleAccountsYearClose at h
  split at h
  · exact absurd h (by simp)
  case _ db0 heq =>
    have hinv0 : LedgerInv db0 := by
      have : db0 = (ensureAccountingSetup db).2 := by rw [heq]
      rw [this]
      exact ensureAccountingSetup_inv hinv
    have hinv2 : LedgerInv
        (ensureAccountByCode (ensureAccountByCode db0 "3900" "Income Summary"
          "equity" "credit").2 "3000" "Owner Equity" "equity" "credit").2 :=
      ledgerInv_of_journalEq (ensureAccountByCode_journalEq _ _ _ _ _)
        (ledgerInv_of_journalEq (ensureAccountByCode_journalEq _ _ _ _ _) hinv0)
    split at h
    · exact absurd h (by simp)
    · dsimp only at h
      split at h
      · injection h with h
        subst h
        exact hinv2
      · injection h with h
        subst h
        exact yearCloseSteps_inv _ year _ _ _ _ _ _
          (deleteBySource_inv _ _ hinv2)

theorem applyInvoicePayment_inv (db : DB) (today : String) (a : PayArgs)
    (r : PayResult × DB) (h : applyInvoicePayment db today a = .ok r)
    (hinv : LedgerInv db) : LedgerInv r.2 := by
  unfold applyInvoicePayment at h
  dsimp only at h
  split at h
  · exact absurd h (by simp)
  · split at h
    · exact absurd h (by simp)
    · split at h
      · exact absurd h (by simp)
      case _ inv hinvfind =>
        split at h
        · injection h with h
          subst h
          exact hinv
        · split at h
          · exact absurd h (by simp)
          · split at h
            case _ msg hup => exact absurd h (by simp)
            case _ db2 hup =>
              injection h with h
              subst h
              dsimp only
              have hinv2 : LedgerInv db2 :=
                upsertTaxIncomeJournal_inv _ _ _ hup ⟨⟨hinv.1.1, hinv.1.2⟩, hinv.2⟩
              exact ledgerInv_of_journalEq ⟨rfl, rfl, rfl⟩ hinv2

theorem stepOp_inv (db : DB) (op : LedgerOp) (hinv : LedgerInv db) :
    LedgerInv (stepOp db op) := by
  cases op with
  | manual d m da ca c =>
      simp only [stepOp]
      split
      next r heq => exact handleAccountsJournalCreate_inv _ _ _ _ _ _ _ heq hinv
      next => exact hinv
  | expenseUpsert row =>
      simp only [stepOp]
      split
      next db' heq => exact upsertTaxExpenseJournal_inv _ _ _ heq hinv
      next => exact hinv
  | incomeUpsert row =>
      simp only [stepOp]
      split
      next db' heq => exact upsertTaxIncomeJournal_inv _ _ _ heq hinv
      next => exact hinv
  | ownerTransfer d t n c =>
      simp only [stepOp]
      split
      next r heq => exact handleTaxOwnerTransfer_inv _ _ _ _ _ _ heq hinv
      next => exact hinv
  | yearClose y ap =>
      simp only [stepOp]
      split
      next r heq => exact handleAccountsYearClose_inv _ _ _ _ heq hinv
      next => exact hinv
  | payment t a =>
      simp only [stepOp]
      split
      next r heq => exact applyInvoicePayment_inv _ _ _ _ heq hinv
      next => exact hinv

/-- C2: every journal entry ever created by any posting operation (manual
journal entry, expense/income auto-journal upsert, owner transfer,
year-end close apply, and the payment poster which posts through the income
upsert) is balanced: starting from any state whose journal satisfies the
ledger invariant (for instance the empty database), after any sequence of
posting operations every stored entry's debit lines and credit lines sum to
the same amount. -/
theorem journal_entries_always_balanced (db : DB) (ops : List LedgerOp)
    (hinv : LedgerInv db) :
    ∀ e ∈ (runOps db ops).entries,
      entryDebits (runOps db ops) e.id = entryCredits (runOps db ops) e.id := by
  have hrun : LedgerInv (runOps db ops) := by
    unfold runOps
    induction ops generalizing db with
    | nil => exact hinv
    | cons op t ih =>
        rw [List.foldl_cons]
        exact ih _ (stepOp_inv db op hinv)
  exact hrun.2

/-- The operation sequence of the C2 witness. -/
def c2Ops : List LedgerOp :=
  [.manual "2024-01-02" "seed sale" 1 10 500,
   .expenseUpsert
     { id := 1, expenseDate := "2024-02-03", vendor := "V",
       category := "Office Expense", amountCents := 300,
       paidVia := "checking" },
   .yearClose "2024" true]

/-- The manual entry posted by the first operation of `c2Ops`. -/
def c2Entry : JournalEntry :=
  { id := 1, entryDate := "2024-01-02", memo := "seed sale",
    sourceType := "manual", sourceId := none }

/-- Witness for C2 at a concrete state and operation sequence. -/
theorem journal_entries_always_balanced_witness :
    entryDebits (runOps emptyDB c2Ops) c2Entry.id =
      entryCredits (runOps emptyDB c2Ops) c2Entry.id :=
  journal_entries_always_balanced emptyDB c2Ops (by decide) c2Entry (by decide)

theorem find?_append_none {α : Type} (p : α → Bool) (l1 l2 : List α)
    (h : l1.find? p = none) : (l1 ++ l2).find? p = l2.find? p := by
  induction l1 with
  | nil => rfl
  | cons a t ih =>
      rw [List.find?_cons] at h
      cases hp : p a with
      | true => rw [hp] at h; exact absurd h (by simp)
      | false =>
          rw [hp] at h
          rw [List.cons_append, List.find?_cons, hp]
          exact ih h

theorem find?_map_pres {α : Type} (p : α → Bool) (f : α → α) (l : List α)
    (hf : ∀ x, p (f x) = p x) :
    (l.map f).find? p = (l.find? p).map f := by
  induction l with
  | nil => rfl
  | cons a t ih =>
      rw [List.map_cons, List.find?_cons, List.find?_cons, hf a]
      cases hp : p a with
      | true => rfl
      | false => exact ih

/-- Two states with the same fact tables, invoices and income counter. -/
def FactsEq (db db' : DB) : Prop :=
  db'.taxIncome = db.taxIncome ∧ db'.invoices = db.invoices ∧
    db'.nextIncomeId = db.nextIncomeId

theorem factsEq_refl (db : DB) : FactsEq db db := ⟨rfl, rfl, rfl⟩

theorem factsEq_trans {a b c : DB} (h1 : FactsEq a b) (h2 : FactsEq b c) :
    FactsEq a c :=
  ⟨h2.1.trans h1.1, h2.2.1.trans h1.2.1, h2.2.2.trans h1.2.2⟩

theorem seedFold_factsEq (l : List (String × String × String × String))
    (db : DB) :
    FactsEq db
      (l.foldl (fun d s => (insertAccount d s.1 s.2.1 s.2.2.1 s.2.2.2).2) db) := by
  induction l generalizing db with
  | nil => exact factsEq_refl db
  | cons hd tl ih => exact factsEq_trans (factsEq_refl _) (ih _)

theorem ensureAccountingSetup_factsEq (db : DB) :
    FactsEq db (ensureAccountingSetup db).2 := by
  unfold ensureAccountingSetup
  split
  · exact factsEq_refl db
  · split
    · exact factsEq_refl db
    · exact seedFold_factsEq seedChart db

theorem upsertTaxIncomeJournal_factsEq (db : DB) (row : IncomeRow) (db' : DB)
    (h : upsertTaxIncomeJournal db row = .ok db') : FactsEq db db' := by
  unfold upsertTaxIncomeJournal at h
  split at h
  case _ db0 heq =>
    injection h with h
    subst h
    have : db0 = (ensureAccountingSetup db).2 := by rw [heq]
    rw [this]
    exact ensureAccountingSetup_factsEq db
  case _ db0 heq =>
    have hf0 : FactsEq db db0 := by
      have : db0 = (ensureAccountingSetup db).2 := by rw [heq]
      rw [this]
      exact ensureAccountingSetup_factsEq db
    have hf1 : FactsEq db (deleteAutoJournalBySource db0 "tax_income" row.id) := by
      refine factsEq_trans hf0 ?_
      unfold deleteAutoJournalBySource
      split
      · exact factsEq_refl db0
      · exact ⟨rfl, rfl, rfl⟩
    dsimp only at h
    split at h
    · injection h with h
      subst h
      exact hf1
    · split at h
      · injection h with h
        subst h
        exact factsEq_trans hf1 ⟨rfl, rfl, rfl⟩
      · injection h with h
        subst h
        exact hf1

theorem applyInvoicePayment_dup_branch (db : DB) (today : String) (a : PayArgs)
    (inv : Invoice) (row : IncomeRow)
    (hid : a.invoiceId ≠ 0) (hreq : 0 < a.requestedPaymentCents)
    (hev : strTrim a.paymentEventId ≠ "")
    (hfind : db.invoices.find? (fun i => i.id == a.invoiceId) = some inv)
    (hdup : db.taxIncome.find? (fun r => r.stripeSessionId ==
      some (eventKeyOf a.invoiceId (strTrim a.paymentEventId))) = some row) :
    applyInvoicePayment db today a =
      .ok ({ id := a.invoiceId, amountPaidCents := inv.amountPaidCents,
             balanceDueCents := max 0 (inv.totalCents - inv.amountPaidCents),
             status := if max 0 (inv.totalCents - inv.amountPaidCents) ≤ 0
                       then "paid" else "partial",
             paymentPostedCents := 0, duplicateEvent := true }, db) := by
  have h1 : ¬((decide (a.invoiceId = 0) ||
      decide (a.requestedPaymentCents ≤ 0)) = true) := by
    simp only [Bool.or_eq_true, decide_eq_true_eq, not_or]
    omega
  unfold applyInvoicePayment
  simp only [hfind, hdup]
  rw [if_neg h1, if_neg hev]

theorem applyInvoicePayment_ok_state (db : DB) (today : String) (a : PayArgs)
    (res : PayResult) (db' : DB)
    (h : applyInvoicePayment db today a = .ok (res, db')) :
    db'.taxIncome.find? (fun r => r.stripeSessionId ==
        some (eventKeyOf a.invoiceId (strTrim a.paymentEventId))) ≠ none ∧
    db'.invoices.find? (fun i => i.id == a.invoiceId) ≠ none := by
  unfold applyInvoicePayment at h
  dsimp only at h
  split at h
  · exact absurd h (by simp)
  · split at h
    · exact absurd h (by simp)
    · split at h
      · exact absurd h (by simp)
      case _ inv hfind =>
        split at h
        case _ row hdup =>
          injection h with h
          rw [Prod.mk.injEq] at h
          obtain ⟨hres, hdb⟩ := h
          subst hdb
          constructor
          · rw [hdup]
            simp
          · rw [hfind]
            simp
        case _ hnodup =>
          split at h
          · exact absurd h (by simp)
          · split at h
            case _ msg hup => exact absurd h (by simp)
            case _ db2 hup =>
              injection h with h
              rw [Prod.mk.injEq] at h
              obtain ⟨hres, hdb⟩ := h
              subst hdb
              obtain ⟨hti, hinvcs, _⟩ := upsertTaxIncomeJournal_factsEq _ _ _ hup
              constructor
              · dsimp only
                rw [hti]
                dsimp only
                rw [find?_append_none _ _ _ hnodup]
                rw [List.find?_cons_of_pos]
                · simp
                · simp
              · dsimp only
                rw [hinvcs]
                dsimp only
                rw [find?_map_pres]
                · rw [hfind]
                  simp
                · intro x
                  by_cases hx : (x.id == a.invoiceId) = true
                  · simp [hx]
                  · simp [hx]

/-- The state a caller observes after `applyInvoicePayment`: a thrown error
leaves the state unchanged (every `throw` of the source happens before its
first write). -/
def stateAfterPay (db : DB) (today : String) (a : PayArgs) : DB :=
  match applyInvoicePayment db today a with
  | .ok r => r.2
  | .error _ => db

theorem applyInvoicePayment_ok_cases (db : DB) (today : String) (a : PayArgs)
    (res : PayResult) (db' : DB)
    (h : applyInvoicePayment db today a = .ok (res, db')) :
    a.invoiceId ≠ 0 ∧ 0 < a.requestedPaymentCents ∧
      strTrim a.paymentEventId ≠ "" ∧
    ∃ inv, db.invoices.find? (fun i => i.id == a.invoiceId) = some inv ∧
      ((∃ row, db.taxIncome.find? (fun r => r.stripeSessionId ==
          some (eventKeyOf a.invoiceId (strTrim a.paymentEventId))) = some row ∧
        db' = db ∧ res.duplicateEvent = true) ∨
       (db.taxIncome.find? (fun r => r.stripeSessionId ==
          some (eventKeyOf a.invoiceId (strTrim a.paymentEventId))) = none ∧
        0 < min (max 0 (inv.totalCents - inv.amountPaidCents))
          a.requestedPaymentCents)) := by
  unfold applyInvoicePayment at h
  dsimp only at h
  split at h
  · exact absurd h (by simp)
  case _ hng =>
    split at h
    · exact absurd h (by simp)
    case _ hev =>
      split at h
      · exact absurd h (by simp)
      case _ inv hfind =>
        have hng' : a.invoiceId ≠ 0 ∧ 0 < a.requestedPaymentCents := by
          simp only [Bool.or_eq_true, decide_eq_true_eq, not_or] at hng
          omega
        refine ⟨hng'.1, hng'.2, hev, inv, hfind, ?_⟩
        split at h
        case _ row hdup =>
          injection h with h
          rw [Prod.mk.injEq] at h
          obtain ⟨hres, hdb⟩ := h
          exact .inl ⟨row, hdup, hdb.symm, by rw [← hres]⟩
        case _ hnodup =>
          split at h
          · exact absurd h (by simp)
          case _ happ =>
            refine .inr ⟨hnodup, ?_⟩
            omega

/-- Whether an `Except` result is a success. -/
def exceptOk {e b : Type} : Except e b → Bool
  | .ok _ => true
  | .error _ => false

theorem applyInvoicePayment_success_shape (db : DB) (today : String)
    (a : PayArgs) (inv : Invoice)
    (hid : a.invoiceId ≠ 0) (hreq : 0 < a.requestedPaymentCents)
    (hev : strTrim a.paymentEventId ≠ "")
    (hfind : db.invoices.find? (fun i => i.id == a.invoiceId) = some inv)
    (hnodup : db.taxIncome.find? (fun r => r.stripeSessionId ==
      some (eventKeyOf a.invoiceId (strTrim a.paymentEventId))) = none)
    (happ : 0 < min (max 0 (inv.totalCents - inv.amountPaidCents))
      a.requestedPaymentCents) :
    exceptOk (applyInvoicePayment db today a) = true := by
  have h1 : ¬((decide (a.invoiceId = 0) ||
      decide (a.requestedPaymentCents ≤ 0)) = true) := by
    simp only [Bool.or_eq_true, decide_eq_true_eq, not_or]
    omega
  unfold applyInvoicePayment
  simp only [hfind, hnodup]
  rw [if_neg h1, if_neg hev, if_neg (by omega :
    ¬(min (max 0 (inv.totalCents - inv.amountPaidCents))
        a.requestedPaymentCents ≤ 0))]
  split
  case _ e2 hup =>
    obtain ⟨d, hok⟩ := upsertTaxIncomeJournal_ok _ _
    rw [hok] at hup
    cases hup
  case _ db2 hup => rfl

/-- C1: when an income record tagged with the key
`invoice-payment:{invoiceId}:{eventId}` already exists, `applyInvoicePayment`
returns the invoice's current paid amount with the balance and status
derived from it, flagged `duplicateEvent := true`, and returns the state
unchanged (no income row, no journal row, no invoice field is written);
the concurrent-insert race recovery likewise posts nothing and reports a
duplicate; and calling the poster twice with the same
`(invoiceId, externalEventId)` pair and any positive (possibly different)
amounts leaves the state after the second call identical to the state
after the first. -/
theorem applyInvoicePayment_duplicate_idempotent :
    (∀ (db : DB) (today : String) (a : PayArgs) (inv : Invoice) (row : IncomeRow),
      a.invoiceId ≠ 0 → 0 < a.requestedPaymentCents →
      strTrim a.paymentEventId ≠ "" →
      db.invoices.find? (fun i => i.id == a.invoiceId) = some inv →
      db.taxIncome.find? (fun r => r.stripeSessionId ==
        some (eventKeyOf a.invoiceId (strTrim a.paymentEventId))) = some row →
      applyInvoicePayment db today a =
        .ok ({ id := a.invoiceId, amountPaidCents := inv.amountPaidCents,
               balanceDueCents := max 0 (inv.totalCents - inv.amountPaidCents),
               status := if max 0 (inv.totalCents - inv.amountPaidCents) ≤ 0
                         then "paid" else "partial",
               paymentPostedCents := 0, duplicateEvent := true }, db)) ∧
    (∀ (db : DB) (id : Int) (key : String) (total paid : Int)
       (r : PayResult) (db' : DB),
      applyInvoicePaymentRaceRecovery db id key total paid = some (r, db') →
      db' = db ∧ r.duplicateEvent = true ∧ r.paymentPostedCents = 0) ∧
    (∀ (db : DB) (t1 t2 : String) (a1 a2 : PayArgs),
      a2.invoiceId = a1.invoiceId →
      strTrim a2.paymentEventId = strTrim a1.paymentEventId →
      0 < a1.requestedPaymentCents → 0 < a2.requestedPaymentCents →
      stateAfterPay (stateAfterPay db t1 a1) t2 a2 = stateAfterPay db t1 a1) := by
  refine ⟨?_, ?_, ?_⟩
  · intro db today a inv row hid hreq hev hfind hdup
    exact applyInvoicePayment_dup_branch db today a inv row hid hreq hev hfind hdup
  · intro db id key total paid r db' h
    unfold applyInvoicePaymentRaceRecovery at h
    split at h
    · cases h
    · rw [Option.some.injEq, Prod.mk.injEq] at h
      obtain ⟨hr, hdb⟩ := h
      exact ⟨hdb.symm, by rw [← hr], by rw [← hr]⟩
  · intro db t1 t2 a1 a2 hid hev hreq1 hreq2
    unfold stateAfterPay
    cases hc1 : applyInvoicePayment db t1 a1 with
    | ok p =>
        obtain ⟨res1, db1'⟩ := p
        obtain ⟨hne1, hne2⟩ := applyInvoicePayment_ok_state db t1 a1 res1 db1' hc1
        obtain ⟨id1, req1pos, ev1, _⟩ :=
          applyInvoicePayment_ok_cases db t1 a1 res1 db1' hc1
        rcases hrow : db1'.taxIncome.find? (fun r => r.stripeSessionId ==
            some (eventKeyOf a1.invoiceId (strTrim a1.paymentEventId))) with _ | row
        · exact absurd hrow hne1
        rcases hinv2 : db1'.invoices.find? (fun i => i.id == a1.invoiceId)
          with _ | inv2
        · exact absurd hinv2 hne2
        have hc2 := applyInvoicePayment_dup_branch db1' t2 a2 inv2 row
          (by rw [hid]; exact id1) hreq2 (by rw [hev]; exact ev1)
          (by rw [hid]; exact hinv2) (by rw [hid, hev]; exact hrow)
        rw [hc2]
    | error msg =>
        cases hc2 : applyInvoicePayment db t2 a2 with
        | error m2 => rfl
        | ok p =>
            obtain ⟨res2, db2'⟩ := p
            obtain ⟨id2, req2pos, ev2, inv, hfind2, hcase⟩ :=
              applyInvoicePayment_ok_cases db t2 a2 res2 db2' hc2
            rcases hcase with ⟨row, hrow, hdb, _⟩ | ⟨hnodup, happ⟩
            · exact hdb
            · exfalso
              rw [hid] at id2 hfind2
              rw [hev] at ev2
              rw [hid, hev] at hnodup
              have happ1 : 0 < min (max 0 (inv.totalCents - inv.amountPaidCents))
                  a1.requestedPaymentCents := by omega
              have hshape := applyInvoicePayment_success_shape db t1 a1 inv
                id2 hreq1 ev2 hfind2 hnodup happ1
              rw [hc1] at hshape
              cases hshape

/-- A concrete invoice for witnesses: total 10000, 4000 already paid. -/
def c1Invoice : Invoice :=
  { id := 3, invoiceNumber := "INV-3", totalCents := 10000,
    amountPaidCents := 4000, balanceDueCents := 6000,
    status := "partial", paidDate := none }

/-- A concrete income row already tagged with the payment event key. -/
def c1Row : IncomeRow :=
  { id := 1, incomeDate := "2024-04-01", source := "Invoice Payment",
    category := "Service Revenue", amountCents := 4000,
    stripeSessionId := some "invoice-payment:3:evt_1",
    notes := some "invoice_id=3", isOwnerFunded := 0 }

/-- A concrete state holding `c1Invoice` and `c1Row`. -/
def c1DB : DB :=
  { emptyDB with
    invoices := [c1Invoice], taxIncome := [c1Row], nextIncomeId := 2 }

/-- The payment arguments of the duplicated event, with a different
amount than the recorded one. -/
def c1Args : PayArgs :=
  { invoiceId := 3, requestedPaymentCents := 9999,
    paymentEventId := "evt_1", incomeDate := none,
    incomeSource := "Invoice Payment", incomeCategory := "Service Revenue",
    incomeNotes := none, stripeSessionIdForBooks := none }

/-- The duplicate result of the race-recovery path at the witness state. -/
def c1RaceRes : PayResult :=
  { id := 3, amountPaidCents := 4000, balanceDueCents := 6000,
    status := "partial", paymentPostedCents := 0, duplicateEvent := true }

/-- Witness for C1 at a concrete state: the duplicated event returns the
current paid/balance with `duplicateEvent = true` and the unchanged state;
the race recovery reports a duplicate without writing; and a repeated call
with the same key leaves the state fixed. -/
theorem applyInvoicePayment_duplicate_idempotent_witness :
    applyInvoicePayment c1DB "2024-05-01" c1Args =
      .ok ({ id := 3, amountPaidCents := 4000,
             balanceDueCents := max 0 ((10000 : Int) - 4000),
             status := if max 0 ((10000 : Int) - 4000) ≤ 0 then "paid"
                       else "partial",
             paymentPostedCents := 0, duplicateEvent := true }, c1DB) ∧
    (c1DB = c1DB ∧ c1RaceRes.duplicateEvent = true ∧
      c1RaceRes.paymentPostedCents = 0) ∧
    stateAfterPay (stateAfterPay c1DB "2024-05-01" c1Args) "2024-05-02" c1Args =
      stateAfterPay c1DB "2024-05-01" c1Args := by
  refine ⟨?_, ?_, ?_⟩
  · exact applyInvoicePayment_duplicate_idempotent.1 c1DB "2024-05-01" c1Args
      c1Invoice c1Row (by decide) (by decide) (by decide) (by decide) (by decide)
  · exact applyInvoicePayment_duplicate_idempotent.2.1 c1DB 3
      "invoice-payment:3:evt_1" 10000 4000 c1RaceRes c1DB (by decide)
  · exact applyInvoicePayment_duplicate_idempotent.2.2 c1DB "2024-05-01"
      "2024-05-02" c1Args c1Args rfl rfl (by decide) (by decide)

theorem applyInvoicePayment_ok_update (db : DB) (today : String) (a : PayArgs)
    (res : PayResult) (db' : DB) (inv : Invoice)
    (h : applyInvoicePayment db today a = .ok (res, db'))
    (hfind : db.invoices.find? (fun i => i.id == a.invoiceId) = some inv)
    (hnodup : db.taxIncome.find? (fun r => r.stripeSessionId ==
      some (eventKeyOf a.invoiceId (strTrim a.paymentEventId))) = none) :
    res.paymentPostedCents =
      min (max 0 (inv.totalCents - inv.amountPaidCents))
        a.requestedPaymentCents ∧
    res.duplicateEvent = false ∧
    db'.invoices.find? (fun i => i.id == a.invoiceId) =
      some { inv with
        amountPaidCents := inv.amountPaidCents +
          min (max 0 (inv.totalCents - inv.amountPaidCents))
            a.requestedPaymentCents,
        balanceDueCents := max 0 (inv.totalCents - (inv.amountPaidCents +
          min (max 0 (inv.totalCents - inv.amountPaidCents))
            a.requestedPaymentCents)),
        status := if max 0 (inv.totalCents - (inv.amountPaidCents +
            min (max 0 (inv.totalCents - inv.amountPaidCents))
              a.requestedPaymentCents)) ≤ 0 then "paid" else "partial",
        paidDate := if max 0 (inv.totalCents - (inv.amountPaidCents +
            min (max 0 (inv.totalCents - inv.amountPaidCents))
              a.requestedPaymentCents)) = 0 then some today
          else inv.paidDate } := by
  unfold applyInvoicePayment at h
  dsimp only at h
  split at h
  · exact absurd h (by simp)
  · split at h
    · exact absurd h (by simp)
    · split at h
      · exact absurd h (by simp)
      case _ inv0 hfind0 =>
        rw [hfind0, Option.some.injEq] at hfind
        subst hfind
        split at h
        case _ row hdup => rw [hdup] at hnodup; cases hnodup
        case _ =>
          split at h
          · exact absurd h (by simp)
          case _ happ =>
            split at h
            case _ msg hup => exact absurd h (by simp)
            case _ db2 hup =>
              injection h with h
              rw [Prod.mk.injEq] at h
              obtain ⟨hres, hdb⟩ := h
              subst hdb
              obtain ⟨hti, hinvcs, _⟩ := upsertTaxIncomeJournal_factsEq _ _ _ hup
              refine ⟨by rw [← hres], by rw [← hres], ?_⟩
              dsimp only
              rw [hinvcs]
              dsimp only
              rw [find?_map_pres]
              · rw [hfind0]
                have hpx := List.find?_some hfind0
                simp [hpx]
                intro hcontra
                exact absurd (by simpa using hpx) hcontra
              · intro x
                by_cases hx : (x.id == a.invoiceId) = true
                · simp [hx]
                · simp [hx]

/-- C3: on a non-duplicate call with an existing invoice and positive
requested amount, the applied amount is
`min (max 0 (total - paid)) requested`; when that is not positive the call
fails with "Invoice is already fully paid" and writes nothing; otherwise it
succeeds, posts exactly the applied amount, and afterwards the invoice
satisfies `amountPaidCents + balanceDueCents = totalCents` with status
`paid` exactly when the balance is zero and `partial` otherwise. -/
theorem applyInvoicePayment_amount_clamp_and_status
    (db : DB) (today : String) (a : PayArgs) (inv : Invoice)
    (hid : a.invoiceId ≠ 0) (hreq : 0 < a.requestedPaymentCents)
    (hev : strTrim a.paymentEventId ≠ "")
    (hfind : db.invoices.find? (fun i => i.id == a.invoiceId) = some inv)
    (hnodup : db.taxIncome.find? (fun r => r.stripeSessionId ==
      some (eventKeyOf a.invoiceId (strTrim a.paymentEventId))) = none) :
    (min (max 0 (inv.totalCents - inv.amountPaidCents))
        a.requestedPaymentCents ≤ 0 →
      applyInvoicePayment db today a =
        .error "Invoice is already fully paid" ∧
      stateAfterPay db today a = db) ∧
    (0 < min (max 0 (inv.totalCents - inv.amountPaidCents))
        a.requestedPaymentCents →
      ∃ res db', applyInvoicePayment db today a = .ok (res, db') ∧
        res.paymentPostedCents =
          min (max 0 (inv.totalCents - inv.amountPaidCents))
            a.requestedPaymentCents ∧
        res.duplicateEvent = false ∧
        ∃ inv', db'.invoices.find? (fun i => i.id == a.invoiceId) = some inv' ∧
          inv'.amountPaidCents = inv.amountPaidCents +
            min (max 0 (inv.totalCents - inv.amountPaidCents))
              a.requestedPaymentCents ∧
          inv'.amountPaidCents + inv'.balanceDueCents = inv.totalCents ∧
          inv'.status = (if inv'.balanceDueCents = 0 then "paid"
                         else "partial")) := by
  have h1 : ¬((decide (a.invoiceId = 0) ||
      decide (a.requestedPaymentCents ≤ 0)) = true) := by
    simp only [Bool.or_eq_true, decide_eq_true_eq, not_or]
    omega
  constructor
  · intro hle
    have herr : applyInvoicePayment db today a =
        .error "Invoice is already fully paid" := by
      unfold applyInvoicePayment
      simp only [hfind, hnodup]
      rw [if_neg h1, if_neg hev, if_pos hle]
    refine ⟨herr, ?_⟩
    unfold stateAfterPay
    rw [herr]
  · intro happ
    have hsh := applyInvoicePayment_success_shape db today a inv hid hreq hev
      hfind hnodup happ
    cases hres : applyInvoicePayment db today a with
    | error e => rw [hres] at hsh; cases hsh
    | ok p =>
        obtain ⟨res, db'⟩ := p
        obtain ⟨hpc, hdup, hfind'⟩ :=
          applyInvoicePayment_ok_update db today a res db' inv hres hfind hnodup
        refine ⟨res, db', rfl, hpc, hdup, ?_⟩
        refine ⟨_, hfind', rfl, ?_, ?_⟩
        · dsimp only
          omega
        · dsimp only
          by_cases hb : max 0 (inv.totalCents - (inv.amountPaidCents +
              min (max 0 (inv.totalCents - inv.amountPaidCents))
                a.requestedPaymentCents)) = 0
          · rw [if_pos (by omega), if_pos hb]
          · rw [if_neg (by omega), if_neg hb]

/-- Witness invoice for C3: total 10000 with 8000 already paid. -/
def c3Invoice : Invoice :=
  { id := 7, invoiceNumber := "INV-7", totalCents := 10000,
    amountPaidCents := 8000, balanceDueCents := 2000,
    status := "partial", paidDate := none }

/-- Witness state for C3. -/
def c3DB : DB :=
  { emptyDB with invoices := [c3Invoice] }

/-- Witness arguments for C3: 5000 requested against a 2000 balance. -/
def c3Args : PayArgs :=
  { invoiceId := 7, requestedPaymentCents := 5000,
    paymentEventId := "evt_9", incomeDate := some "2024-06-01",
    incomeSource := "Invoice Payment", incomeCategory := "Service Revenue",
    incomeNotes := none, stripeSessionIdForBooks := none }

/-- Witness for C3: the overpayment is clamped to the remaining 2000 and
the invoice lands on a zero balance with status paid. -/
theorem applyInvoicePayment_amount_clamp_and_status_witness :
    ∃ res db', applyInvoicePayment c3DB "2024-06-01" c3Args = .ok (res, db') ∧
      res.paymentPostedCents =
        min (max 0 (c3Invoice.totalCents - c3Invoice.amountPaidCents))
          c3Args.requestedPaymentCents ∧
      res.duplicateEvent = false ∧
      ∃ inv', db'.invoices.find? (fun i => i.id == c3Args.invoiceId) =
          some inv' ∧
        inv'.amountPaidCents = c3Invoice.amountPaidCents +
          min (max 0 (c3Invoice.totalCents - c3Invoice.amountPaidCents))
            c3Args.requestedPaymentCents ∧
        inv'.amountPaidCents + inv'.balanceDueCents = c3Invoice.totalCents ∧
        inv'.status = (if inv'.balanceDueCents = 0 then "paid"
                       else "partial") :=
  (applyInvoicePayment_amount_clamp_and_status c3DB "2024-06-01" c3Args
    c3Invoice (by decide) (by decide) (by decide) (by decide)
    (by decide)).2 (by decide)

/-- A ledger with the seeded chart and one manual entry dated 2024-03-15:
debit Cash on Hand (account id 1), credit Service Revenue (account id 10)
for 100 cents. -/
def c4Base : DB :=
  stepOp emptyDB (.manual "2024-03-15" "sale" 1 10 100)

/-- The state after applying year-end close for 2024 once. -/
def c4After1 : DB :=
  stepOp c4Base (.yearClose "2024" true)

/-- The state after applying year-end close for 2024 a second time. -/
def c4After2 : DB :=
  stepOp c4After1 (.yearClose "2024" true)

/-- The number of closing entries tagged for the year-close source. -/
def countYearClose (db : DB) : Nat :=
  (db.entries.filter (fun e => e.sourceType == "year_close")).length

/-- C4 evaluation at the failing input: the first apply posts two closing
entries (revenues and net-to-equity), but the second apply recomputes the
balances over a ledger that already contains those closing entries (all
zero), deletes them, posts nothing, and thus leaves the year unclosed —
the end state differs from the state after the first apply. -/
theorem yearClose_reapply_not_idempotent :
    countYearClose c4After1 = 2 ∧ countYearClose c4After2 = 0 ∧
      c4After2 ≠ c4After1 := by
  decide

/-- A ledger whose only journal entry is dated 2023-06-01: debit Cash on
Hand (id 1), credit Service Revenue (id 10) for 100 cents. -/
def c5DB : DB :=
  stepOp emptyDB (.manual "2023-06-01" "old sale" 1 10 100)

/-- The Service Revenue account row as seeded. -/
def c5IncomeAccount : Account :=
  { id := 10, code := "4000", name := "Service Revenue",
    accountType := "income", normalSide := "credit" }

/-- The step-1 amount of a year-close result, when it succeeded. -/
def previewStep1 (r : Except String (ClosePreview × DB)) : Option Int :=
  match r with
  | .ok (p, _) => some p.step1Cents
  | .error _ => none

/-- The balance the claim describes for year-end close aggregation: journal
lines of the account restricted to entries whose `entry_date` lies inside
the calendar year's date range, with `normalSide`-directed sign.  This
definition follows the claim's words and exists only to be compared with
the behaviour of `handleAccountsYearClose`. -/
def claimYearBalance (db : DB) (year : String) (a : Account) : Int :=
  let inRange := fun (l : JournalLine) =>
    match db.entries.find? (fun e => e.id == l.entryId) with
    | some e => !(strLt e.entryDate (year ++ "-01-01")) &&
                !(strLt (year ++ "-12-31") e.entryDate)
    | none => false
  let lns := db.lines.filter (fun l => (l.accountId == a.id) && inRange l)
  let d := (lns.map (·.debitCents)).sum
  let c := (lns.map (·.creditCents)).sum
  if a.normalSide = "debit" then d - c else c - d

/-- C5 evaluation at the failing input: closing year 2024 over a ledger
whose only entry is dated 2023-06-01 previews a revenues-closing amount of
100 cents, although the only income account's balance over the 2024 date
range is 0 — the SQL's year bounds sit in the `LEFT JOIN ... ON` clause
and restrict nothing. -/
theorem yearClose_ignores_date_range :
    previewStep1 (handleAccountsYearClose c5DB "2024" false) = some 100 ∧
    c5IncomeAccount ∈ c5DB.accounts ∧
    c5IncomeAccount.accountType = "income" ∧
    claimYearBalance c5DB "2024" c5IncomeAccount = 0 ∧
    yearCloseBalance c5DB c5IncomeAccount = 100 := by
  decide

/-- C6 counterexample at a concrete state: on the freshly seeded chart
(which has no account 3900), a preview-mode year close creates the Income
Summary account row — a write to persisted state. -/
theorem yearClose_preview_writes_account_row :
    ((ensureAccountingSetup emptyDB).2.accounts.filter
      (fun a => a.code == "3900")).length = 0 ∧
    ((stepOp (ensureAccountingSetup emptyDB).2
        (.yearClose "2024" false)).accounts.filter
      (fun a => a.code == "3900")).length = 1 := by
  decide

theorem ensureAccountingSetup_of_ne (db : DB) (hr : db.tablesExist = true)
    (hne : db.accounts ≠ []) : ensureAccountingSetup db = (true, db) := by
  unfold ensureAccountingSetup accountingTablesReady
  rw [hr]
  simp only [Bool.not_true, Bool.false_eq_true, if_false]
  rw [if_pos]
  exact List.length_pos.mpr hne

theorem ensureAccountByCode_accounts (db : DB) (c n t s : String) :
    ∃ l, (ensureAccountByCode db c n t s).2.accounts = db.accounts ++ l ∧
      ∀ x ∈ l, x.code = c := by
  unfold ensureAccountByCode
  split
  · exact ⟨[], by simp⟩
  · refine ⟨[_], rfl, ?_⟩
    intro x hx
    rw [List.mem_singleton.mp hx]

theorem ensureAccountByCode_factsEq (db : DB) (c n t s : String) :
    FactsEq db (ensureAccountByCode db c n t s).2 := by
  unfold ensureAccountByCode
  split
  · exact factsEq_refl db
  · exact ⟨rfl, rfl, rfl⟩

/-- C6 (amended): a preview-mode year close on a provisioned, already
seeded ledger writes no journal entry, no journal line, no income fact and
no invoice field, and the only account rows it may create are the lazily
ensured Income Summary (3900) and Owner Equity (3000) accounts. -/
theorem yearClose_preview_frame (db : DB) (year : String)
    (p : ClosePreview) (db' : DB)
    (h : handleAccountsYearClose db year false = .ok (p, db'))
    (hr : db.tablesExist = true) (hne : db.accounts ≠ []) :
    db'.entries = db.entries ∧ db'.lines = db.lines ∧
    db'.taxIncome = db.taxIncome ∧ db'.invoices = db.invoices ∧
    ∀ acc ∈ db'.accounts,
      acc ∈ db.accounts ∨ acc.code = "3900" ∨ acc.code = "3000" := by
  unfold handleAccountsYearClose at h
  rw [ensureAccountingSetup_of_ne db hr hne] at h
  split at h
  · exact absurd h (by simp)
  case _ db0 heq =>
    have hdb0 : db0 = db := (congrArg Prod.snd heq).symm
    rw [hdb0] at h
    dsimp only at h
    split at h
    · exact absurd h (by simp)
    · injection h with h
      rw [Prod.mk.injEq] at h
      obtain ⟨hp, hdb⟩ := h
      subst hdb
      have hj1 := ensureAccountByCode_journalEq db "3900" "Income Summary"
        "equity" "credit"
      have hj2 := ensureAccountByCode_journalEq
        (ensureAccountByCode db "3900" "Income Summary" "equity" "credit").2
        "3000" "Owner Equity" "equity" "credit"
      have hf1 := ensureAccountByCode_factsEq db "3900" "Income Summary"
        "equity" "credit"
      have hf2 := ensureAccountByCode_factsEq
        (ensureAccountByCode db "3900" "Income Summary" "equity" "credit").2
        "3000" "Owner Equity" "equity" "credit"
      obtain ⟨l1, hl1, hc1⟩ := ensureAccountByCode_accounts db "3900"
        "Income Summary" "equity" "credit"
      obtain ⟨l2, hl2, hc2⟩ := ensureAccountByCode_accounts
        (ensureAccountByCode db "3900" "Income Summary" "equity" "credit").2
        "3000" "Owner Equity" "equity" "credit"
      refine ⟨(journalEq_trans hj1 hj2).1, (journalEq_trans hj1 hj2).2.1,
        (factsEq_trans hf1 hf2).1, (factsEq_trans hf1 hf2).2.1, ?_⟩
      intro acc hacc
      rw [hl2, hl1] at hacc
      rcases List.mem_append.mp hacc with hx | hx
      · rcases List.mem_append.mp hx with hy | hy
        · exact .inl hy
        · exact .inr (.inl (hc1 acc hy))
      · exact .inr (.inr (hc2 acc hx))

/-- The freshly seeded chart state. -/
def seededDB : DB :=
  (ensureAccountingSetup emptyDB).2

/-- The result of a preview year close on the seeded chart. -/
def c6Run : Except String (ClosePreview × DB) :=
  handleAccountsYearClose seededDB "2024" false

/-- The preview the witness run returned. -/
def c6Preview : ClosePreview :=
  match c6Run with
  | .ok (p, _) => p
  | .error _ => { year := "", step1Cents := 0, step2Cents := 0, step3Cents := 0 }

/-- The state the witness run returned. -/
def c6DBAfter : DB :=
  match c6Run with
  | .ok (_, d) => d
  | .error _ => emptyDB

/-- Witness for the amended C6 at the seeded chart. -/
theorem yearClose_preview_frame_witness :
    c6DBAfter.entries = seededDB.entries ∧
    c6DBAfter.lines = seededDB.lines ∧
    c6DBAfter.taxIncome = seededDB.taxIncome ∧
    c6DBAfter.invoices = seededDB.invoices ∧
    ∀ acc ∈ c6DBAfter.accounts,
      acc ∈ seededDB.accounts ∨ acc.code = "3900" ∨ acc.code = "3000" :=
  yearClose_preview_frame seededDB "2024" c6Preview c6DBAfter
    (by rfl) (by decide) (by decide)

theorem ensureAccountingSetup_not_ready (db : DB)
    (h : db.tablesExist = false) : ensureAccountingSetup db = (false, db) := by
  unfold ensureAccountingSetup accountingTablesReady
  rw [h]
  rfl

theorem deleteAutoJournalBySource_accounts (db : DB) (st : String) (sid : Int) :
    (deleteAutoJournalBySource db st sid).accounts = db.accounts := by
  unfold deleteAutoJournalBySource
  split
  · rfl
  · rfl

theorem getAccountIdByCode_congr {db1 db2 : DB} (c : String)
    (h : db1.accounts = db2.accounts) :
    getAccountIdByCode db1 c = getAccountIdByCode db2 c := by
  unfold getAccountIdByCode
  rw [h]

/-- C7: the expense auto-journal upsert posts one balanced entry that
debits the account with code 5300 when the category is exactly "Payment
Processing Fees" and 5200 otherwise, and credits the offset account chosen
from the lower-cased `paid_via` text by substring priority
(stripe/cash/checking/bank before business card/corp card before the 3100
default), while a fact with amount ≤ 0 deletes its prior auto journal and
creates no new entry. -/
theorem upsertTaxExpenseJournal_mapping (db : DB) (row : ExpenseRow)
    (hr : db.tablesExist = true) (hne : db.accounts ≠ [])
    (dId cId : Int)
    (hd : getAccountIdByCode db
      (if row.category = "Payment Processing Fees" then "5300" else "5200") =
      some dId)
    (hc : getAccountIdByCode db
      (expenseOffsetCodeFor (strToLower row.paidVia)) = some cId) :
    (row.amountCents ≤ 0 →
      upsertTaxExpenseJournal db row =
        .ok (deleteAutoJournalBySource db "tax_expense" row.id) ∧
      ∀ e ∈ (deleteAutoJournalBySource db "tax_expense" row.id).entries,
        e ∈ db.entries) ∧
    (0 < row.amountCents →
      ∃ db', upsertTaxExpenseJournal db row = .ok db' ∧
        db'.entries =
          (deleteAutoJournalBySource db "tax_expense" row.id).entries ++
          [{ id := (deleteAutoJournalBySource db "tax_expense" row.id).nextEntryId,
             entryDate := row.expenseDate,
             memo := (if row.category = "" then "Expense" else row.category) ++
               (if row.vendor = "" then "" else " - " ++ row.vendor),
             sourceType := "tax_expense", sourceId := some row.id }] ∧
        db'.lines =
          (deleteAutoJournalBySource db "tax_expense" row.id).lines ++
          [{ entryId := (deleteAutoJournalBySource db "tax_expense" row.id).nextEntryId,
             accountId := dId, debitCents := row.amountCents, creditCents := 0 },
           { entryId := (deleteAutoJournalBySource db "tax_expense" row.id).nextEntryId,
             accountId := cId, debitCents := 0,
             creditCents := row.amountCents }]) := by
  have hsetup : ensureAccountingSetup db = (true, db) :=
    ensureAccountingSetup_of_ne db hr hne
  have hacc : (deleteAutoJournalBySource db "tax_expense" row.id).accounts =
      db.accounts := deleteAutoJournalBySource_accounts db "tax_expense" row.id
  constructor
  · intro hle
    constructor
    · unfold upsertTaxExpenseJournal
      rw [hsetup]
      dsimp only
      rw [if_pos hle]
    · intro e he
      revert he
      unfold deleteAutoJournalBySource
      split
      · exact fun he => he
      · exact fun he => List.mem_of_mem_filter he
  · intro hgt
    refine ⟨(postEntry (deleteAutoJournalBySource db "tax_expense" row.id)
      row.expenseDate ((if row.category = "" then "Expense" else row.category) ++
        (if row.vendor = "" then "" else " - " ++ row.vendor))
      "tax_expense" (some row.id)
      [(dId, row.amountCents, 0), (cId, 0, row.amountCents)]).2, ?_, ?_, ?_⟩
    · unfold upsertTaxExpenseJournal
      rw [hsetup]
      dsimp only
      rw [if_neg (by omega), expenseAccountCodeFor,
        getAccountIdByCode_congr _ hacc, hd,
        getAccountIdByCode_congr _ hacc, hc]
    · rfl
    · rfl

/-- Witness expense fact for C7: a processing fee paid via business card. -/
def c7Row : ExpenseRow :=
  { id := 11, expenseDate := "2024-03-01", vendor := "Stripe",
    category := "Payment Processing Fees", amountCents := 250,
    paidVia := "Business Card" }

/-- Witness for C7 at the seeded chart: account 15 is code 5300, account 5
is code 2100. -/
theorem upsertTaxExpenseJournal_mapping_witness :
    (c7Row.amountCents ≤ 0 →
      upsertTaxExpenseJournal seededDB c7Row =
        .ok (deleteAutoJournalBySource seededDB "tax_expense" c7Row.id) ∧
      ∀ e ∈ (deleteAutoJournalBySource seededDB "tax_expense" c7Row.id).entries,
        e ∈ seededDB.entries) ∧
    (0 < c7Row.amountCents →
      ∃ db', upsertTaxExpenseJournal seededDB c7Row = .ok db' ∧
        db'.entries =
          (deleteAutoJournalBySource seededDB "tax_expense" c7Row.id).entries ++
          [{ id := (deleteAutoJournalBySource seededDB "tax_expense" c7Row.id).nextEntryId,
             entryDate := c7Row.expenseDate,
             memo := (if c7Row.category = "" then "Expense" else c7Row.category) ++
               (if c7Row.vendor = "" then "" else " - " ++ c7Row.vendor),
             sourceType := "tax_expense", sourceId := some c7Row.id }] ∧
        db'.lines =
          (deleteAutoJournalBySource seededDB "tax_expense" c7Row.id).lines ++
          [{ entryId := (deleteAutoJournalBySource seededDB "tax_expense" c7Row.id).nextEntryId,
             accountId := 15, debitCents := c7Row.amountCents, creditCents := 0 },
           { entryId := (deleteAutoJournalBySource seededDB "tax_expense" c7Row.id).nextEntryId,
             accountId := 5, debitCents := 0,
             creditCents := c7Row.amountCents }]) :=
  upsertTaxExpenseJournal_mapping seededDB c7Row (by decide) (by decide)
    15 5 (by decide) (by decide)

/-- An income fact whose category is exactly "test" (not owner-flagged,
empty source). -/
def c8Row : IncomeRow :=
  { id := 5, incomeDate := "2024-02-02", source := "", category := "test",
    amountCents := 100, stripeSessionId := none, notes := none,
    isOwnerFunded := 0 }

/-- C8 counterexample: for a fact whose category text is "test" the upsert
credits Service Revenue (account 10, code 4000), not Owner Contributions
(account 8, code 3100) — the category text is only probed for
"owner funded" and "non-revenue"; "test" is probed in the source text
alone. -/
theorem income_category_test_credits_revenue :
    (((stepOp seededDB (.incomeUpsert c8Row)).lines.filter
      (fun l => l.creditCents ≠ 0)).map (·.accountId)) = [10] ∧
    (seededDB.accounts.find? (fun a => a.id == 10)).map (·.code) =
      some "4000" ∧
    (seededDB.accounts.find? (fun a => a.code == "3100")).map (·.id) =
      some 8 := by
  decide

/-- C8 (amended): the income auto-journal upsert always debits Cash on
Hand (1000); the credit is Owner Contributions (3100) when the record is
owner-funded — the explicit flag, or the trimmed lower-cased category text
containing "owner funded" or "non-revenue", or the trimmed lower-cased
source text containing "owner funded" or "test" — and Service Revenue
(4000) otherwise. -/
theorem upsertTaxIncomeJournal_mapping (db : DB) (row : IncomeRow)
    (hr : db.tablesExist = true) (hne : db.accounts ≠ [])
    (dId cId : Int)
    (hd : getAccountIdByCode db "1000" = some dId)
    (hc : getAccountIdByCode db
      (if incomeIsOwnerFunded row then "3100" else "4000") = some cId)
    (hgt : 0 < row.amountCents) :
    ∃ db', upsertTaxIncomeJournal db row = .ok db' ∧
      db'.entries =
        (deleteAutoJournalBySource db "tax_income" row.id).entries ++
        [{ id := (deleteAutoJournalBySource db "tax_income" row.id).nextEntryId,
           entryDate := row.incomeDate,
           memo := (if row.category = "" then "Income" else row.category) ++
             (if row.source = "" then "" else " - " ++ row.source),
           sourceType := "tax_income", sourceId := some row.id }] ∧
      db'.lines =
        (deleteAutoJournalBySource db "tax_income" row.id).lines ++
        [{ entryId := (deleteAutoJournalBySource db "tax_income" row.id).nextEntryId,
           accountId := dId, debitCents := row.amountCents, creditCents := 0 },
         { entryId := (deleteAutoJournalBySource db "tax_income" row.id).nextEntryId,
           accountId := cId, debitCents := 0,
           creditCents := row.amountCents }] := by
  have hsetup : ensureAccountingSetup db = (true, db) :=
    ensureAccountingSetup_of_ne db hr hne
  have hacc : (deleteAutoJournalBySource db "tax_income" row.id).accounts =
      db.accounts := deleteAutoJournalBySource_accounts db "tax_income" row.id
  refine ⟨(postEntry (deleteAutoJournalBySource db "tax_income" row.id)
    row.incomeDate ((if row.category = "" then "Income" else row.category) ++
      (if row.source = "" then "" else " - " ++ row.source))
    "tax_income" (some row.id)
    [(dId, row.amountCents, 0), (cId, 0, row.amountCents)]).2, ?_, ?_, ?_⟩
  · unfold upsertTaxIncomeJournal
    rw [hsetup]
    dsimp only
    rw [if_neg (by omega), getAccountIdByCode_congr _ hacc, hd,
      getAccountIdByCode_congr _ hacc, hc]
  · rfl
  · rfl

/-- Witness income fact for the amended C8: the source text contains
"test", so the credit goes to Owner Contributions (account 8, 3100). -/
def c8SourceTestRow : IncomeRow :=
  { id := 6, incomeDate := "2024-02-03", source := "Test payment",
    category := "Sales", amountCents := 700, stripeSessionId := none,
    notes := none, isOwnerFunded := 0 }

/-- Witness for the amended C8 at the seeded chart: account 1 is Cash on
Hand (1000), account 8 is Owner Contributions (3100). -/
theorem upsertTaxIncomeJournal_mapping_witness :
    ∃ db', upsertTaxIncomeJournal seededDB c8SourceTestRow = .ok db' ∧
      db'.entries =
        (deleteAutoJournalBySource seededDB "tax_income" c8SourceTestRow.id).entries ++
        [{ id := (deleteAutoJournalBySource seededDB "tax_income" c8SourceTestRow.id).nextEntryId,
           entryDate := c8SourceTestRow.incomeDate,
           memo := (if c8SourceTestRow.category = "" then "Income"
               else c8SourceTestRow.category) ++
             (if c8SourceTestRow.source = "" then ""
               else " - " ++ c8SourceTestRow.source),
           sourceType := "tax_income", sourceId := some c8SourceTestRow.id }] ∧
      db'.lines =
        (deleteAutoJournalBySource seededDB "tax_income" c8SourceTestRow.id).lines ++
        [{ entryId := (deleteAutoJournalBySource seededDB "tax_income" c8SourceTestRow.id).nextEntryId,
           accountId := 1, debitCents := c8SourceTestRow.amountCents,
           creditCents := 0 },
         { entryId := (deleteAutoJournalBySource seededDB "tax_income" c8SourceTestRow.id).nextEntryId,
           accountId := 8, debitCents := 0,
           creditCents := c8SourceTestRow.amountCents }] :=
  upsertTaxIncomeJournal_mapping seededDB c8SourceTestRow (by decide)
    (by decide) 1 8 (by decide) (by decide) (by decide)

/-- A state where the ledger tables have not been migrated. -/
def noTablesDB : DB :=
  { emptyDB with tablesExist := false }

/-- An arbitrary expense fact used against the unprovisioned state. -/
def c9ExpenseRow : ExpenseRow :=
  { id := 1, expenseDate := "2024-01-05", vendor := "V",
    category := "Office Expense", amountCents := 500, paidVia := "cash" }

/-- An arbitrary income fact used against the unprovisioned state. -/
def c9IncomeRow : IncomeRow :=
  { id := 1, incomeDate := "2024-01-06", source := "Client",
    category := "Service Revenue", amountCents := 900,
    stripeSessionId := none, notes := none, isOwnerFunded := 0 }

/-- C9 counterexample: with the ledger tables missing, the auto-journal
upserts return successfully with the state untouched — they silently skip
their ledger writes instead of failing with a not-provisioned error. -/
theorem upserts_silently_skip_when_not_provisioned :
    upsertTaxExpenseJournal noTablesDB c9ExpenseRow = .ok noTablesDB ∧
    upsertTaxIncomeJournal noTablesDB c9IncomeRow = .ok noTablesDB :=
  ⟨rfl, rfl⟩

theorem upsertTaxIncomeJournal_not_ready (db : DB) (row : IncomeRow)
    (h : db.tablesExist = false) :
    upsertTaxIncomeJournal db row = .ok db := by
  unfold upsertTaxIncomeJournal
  rw [ensureAccountingSetup_not_ready db h]

/-- C9 (amended): when the ledger tables are missing, the HTTP-level
ledger handlers (manual journal create, owner transfer, year close) fail
fast with the not-provisioned error message, but the auto-journal upserts
return successfully without writing anything, and the payment poster
proceeds — it records the income fact and updates the invoice while
posting no journal entry. -/
theorem ledger_not_provisioned_behaviour (db : DB)
    (h : db.tablesExist = false) :
    (∀ d m da ca c, handleAccountsJournalCreate db d m da ca c =
      .error notMigratedMsg) ∧
    (∀ d t n c, handleTaxOwnerTransfer db d t n c =
      .error notMigratedMsg) ∧
    (∀ y ap, handleAccountsYearClose db y ap = .error notMigratedMsg) ∧
    (∀ row, upsertTaxExpenseJournal db row = .ok db) ∧
    (∀ row, upsertTaxIncomeJournal db row = .ok db) ∧
    (∀ today a res db', applyInvoicePayment db today a = .ok (res, db') →
      db'.entries = db.entries ∧ db'.lines = db.lines) := by
  have hsetup := ensureAccountingSetup_not_ready db h
  refine ⟨?_, ?_, ?_, ?_, ?_, ?_⟩
  · intro d m da ca c
    unfold handleAccountsJournalCreate
    rw [hsetup]
  · intro d t n c
    unfold handleTaxOwnerTransfer
    rw [hsetup]
  · intro y ap
    unfold handleAccountsYearClose
    rw [hsetup]
  · intro row
    unfold upsertTaxExpenseJournal
    rw [hsetup]
  · intro row
    exact upsertTaxIncomeJournal_not_ready db row h
  · intro today a res db' hp
    unfold applyInvoicePayment at hp
    dsimp only at hp
    split at hp
    · exact absurd hp (by simp)
    · split at hp
      · exact absurd hp (by simp)
      · split at hp
        · exact absurd hp (by simp)
        case _ inv hfind =>
          split at hp
          case _ row hdup =>
            injection hp with hp
            rw [Prod.mk.injEq] at hp
            obtain ⟨_, hdb⟩ := hp
            subst hdb
            exact ⟨rfl, rfl⟩
          case _ =>
            split at hp
            · exact absurd hp (by simp)
            · split at hp
              case _ msg hup => exact absurd hp (by simp)
              case _ db2 hup =>
                rw [upsertTaxIncomeJournal_not_ready] at hup
                · injection hup with hup
                  injection hp with hp
                  rw [Prod.mk.injEq] at hp
                  obtain ⟨_, hdb⟩ := hp
                  subst hdb
                  dsimp only
                  rw [← hup]
                  exact ⟨rfl, rfl⟩
                · exact h

/-- Witness for the amended C9 at the unprovisioned state. -/
theorem ledger_not_provisioned_behaviour_witness :
    handleAccountsJournalCreate noTablesDB "2024-01-02" "m" 1 2 100 =
      .error notMigratedMsg ∧
    handleTaxOwnerTransfer noTablesDB "2024-01-02" "personal_to_business"
      "" 100 = .error notMigratedMsg ∧
    handleAccountsYearClose noTablesDB "2024" true =
      .error notMigratedMsg ∧
    upsertTaxExpenseJournal noTablesDB c9ExpenseRow = .ok noTablesDB ∧
    upsertTaxIncomeJournal noTablesDB c9IncomeRow = .ok noTablesDB := by
  have hmain := ledger_not_provisioned_behaviour noTablesDB (by decide)
  exact ⟨hmain.1 _ _ _ _ _, hmain.2.1 _ _ _ _, hmain.2.2.1 _ _,
    hmain.2.2.2.1 _, hmain.2.2.2.2.1 _⟩

/-- C10: `syncInvoicePaidFromIncome` rewrites the invoice's paid, balance
and status from the sum of the matching income rows (session id with the
`invoice-payment:{id}:` key as a LIKE prefix, or notes containing
`invoice_id={id}`), clamping the paid amount into `[0, totalCents]` so
that `amountPaidCents + balanceDueCents = totalCents` holds afterwards;
it never replaces a stored void status and never clears an already-set
paid date. -/
theorem syncInvoicePaidFromIncome_clamps (db : DB) (today : String)
    (invoiceId : Int) (inv : Invoice)
    (hid : invoiceId ≠ 0)
    (hfind : db.invoices.find? (fun i => i.id == invoiceId) = some inv)
    (htot : 0 ≤ inv.totalCents) :
    ∃ r db', syncInvoicePaidFromIncome db today invoiceId = (some r, db') ∧
      r.paid = max 0 (min inv.totalCents
        (((db.taxIncome.filter (incomeMatchesInvoice invoiceId)).map
          (·.amountCents)).sum)) ∧
      0 ≤ r.paid ∧ r.paid ≤ inv.totalCents ∧
      ∃ inv', db'.invoices.find? (fun i => i.id == invoiceId) = some inv' ∧
        inv'.amountPaidCents = r.paid ∧
        inv'.amountPaidCents + inv'.balanceDueCents = inv.totalCents ∧
        (inv.status = "void" → inv'.status = "void") ∧
        (∀ d, inv.paidDate = some d → inv'.paidDate = some d) := by
  unfold syncInvoicePaidFromIncome
  rw [if_neg hid, hfind]
  dsimp only
  refine ⟨_, _, rfl, rfl, by dsimp only; omega, by dsimp only; omega, ?_⟩
  rw [find?_map_pres]
  · rw [hfind]
    have hpx := List.find?_some hfind
    dsimp only [Option.map]
    rw [if_pos hpx]
    refine ⟨_, rfl, ?_, ?_, ?_, ?_⟩
    · dsimp only
    · dsimp only
      omega
    · intro hvoid
      dsimp only
      rw [if_pos hvoid, hvoid]
    · intro d hd
      dsimp only
      rw [hd]
      split
      · rfl
      · rfl
  · intro x
    by_cases hx : (x.id == invoiceId) = true
    · simp [hx]
    · simp [hx]

/-- Witness invoice for C10: total 5000, stored paid date. -/
def c10Invoice : Invoice :=
  { id := 4, invoiceNumber := "INV-4", totalCents := 5000,
    amountPaidCents := 0, balanceDueCents := 5000, status := "draft",
    paidDate := some "2024-01-01" }

/-- Witness state for C10: a 7000-cent matching income row (overpayment)
and an unrelated row. -/
def c10DB : DB :=
  { emptyDB with
    invoices := [c10Invoice],
    taxIncome :=
      [{ id := 1, incomeDate := "2024-06-30", source := "Invoice Payment",
         category := "Service Revenue", amountCents := 7000,
         stripeSessionId := some "invoice-payment:4:evt_7",
         notes := none, isOwnerFunded := 0 },
       { id := 2, incomeDate := "2024-06-30", source := "Other",
         category := "Other Income", amountCents := 100,
         stripeSessionId := none, notes := some "unrelated",
         isOwnerFunded := 0 }],
    nextIncomeId := 3 }

/-- Witness for C10: the 7000-cent income sum is clamped to the 5000-cent
total and the stored paid date survives. -/
theorem syncInvoicePaidFromIncome_clamps_witness :
    ∃ r db', syncInvoicePaidFromIncome c10DB "2024-07-01" 4 = (some r, db') ∧
      r.paid = max 0 (min c10Invoice.totalCents
        (((c10DB.taxIncome.filter (incomeMatchesInvoice 4)).map
          (·.amountCents)).sum)) ∧
      0 ≤ r.paid ∧ r.paid ≤ c10Invoice.totalCents ∧
      ∃ inv', db'.invoices.find? (fun i => i.id == 4) = some inv' ∧
        inv'.amountPaidCents = r.paid ∧
        inv'.amountPaidCents + inv'.balanceDueCents = c10Invoice.totalCents ∧
        (c10Invoice.status = "void" → inv'.status = "void") ∧
        (∀ d, c10Invoice.paidDate = some d → inv'.paidDate = some d) :=
  syncInvoicePaidFromIncome_clamps c10DB "2024-07-01" 4 c10Invoice
    (by decide) (by decide) (by decide)
